import Mathlib

/-!
Verification of the resilient stage-orchestration and element-resolution
engine of the `airbnb_automation` repository.

The Python sources under `automation/` are shallowly embedded below:
pure query helpers become Lean functions over an explicit page/environment
oracle, stateful interaction code is threaded through an explicit
state-and-exception monad, and Python `try/except` blocks become explicit
`Except`-matching combinators.  Machine integers do not overflow in any of
the embedded code paths, so `Nat`/`Int` are used directly.
-/

namespace Airbnb

/-! ## BrowserService timeout computation

Source: `automation/services/browser_service.py`.

`wait_for_element` computes
`timeout_sec = min(timeout or self.DEFAULT_WAIT, 3)` with
`DEFAULT_WAIT = 3`; `wait_for_clickable` computes the same expression and
then forwards its `timeout_sec` to `wait_for_element`.  Python `or`
replaces both `None` and `0` by the default, which we model explicitly. -/

/-- Constant `BrowserService.DEFAULT_WAIT` from `browser_service.py`. -/
def DEFAULT_WAIT : Int := 3

/-- Python expression `timeout or d` for an optional integer `timeout`:
both `None` and `0` are falsy and give the default. -/
def pyOrDefault (timeout : Option Int) (d : Int) : Int :=
  match timeout with
  | none => d
  | some t => if t = 0 then d else t

/-- Embedding of the effective wait (in seconds) computed by
`BrowserService.wait_for_element`:
`timeout_sec = min(timeout or self.DEFAULT_WAIT, 3)`. -/
def wait_for_element_timeout_sec (timeout : Option Int) : Int :=
  min (pyOrDefault timeout DEFAULT_WAIT) 3

/-- Embedding of the effective wait (in seconds) computed by
`BrowserService.wait_for_clickable`:
`timeout_sec = min(timeout or self.DEFAULT_WAIT, 3)`; the same value is
then passed on to `wait_for_element`. -/
def wait_for_clickable_timeout_sec (timeout : Option Int) : Int :=
  min (pyOrDefault timeout DEFAULT_WAIT) 3

end Airbnb

/-! ### C10 theorems -/

/-- C10 counterexample: the claim states that for every caller-supplied
timeout value `t` the effective wait equals `min(t, 3)`; at `t = 0` the
code instead falls back to the 3-second default (`0` is falsy in Python),
so the effective wait is `3`, not `min 0 3 = 0`. -/
theorem c10_counterexample :
    Airbnb.wait_for_element_timeout_sec (some 0) = 3 ∧
    min (0 : Int) 3 ≠ 3 := by
  constructor
  · rfl
  · decide

/-- C10 (amended): `BrowserService.wait_for_element` (and hence
`wait_for_clickable`) clamps the effective visibility-wait to at most 3
seconds.  For every nonzero caller-supplied timeout `t` the effective wait
is exactly `min t 3` — in particular a caller requesting `timeout = 10`
(as the Results stage does) is silently bounded to 3 seconds — while an
omitted or zero timeout falls back to the 3-second default; the value
`wait_for_clickable` forwards to `wait_for_element` is left unchanged by
the inner clamp. -/
theorem c10_wait_clamped_to_three (t : Int) (ht : t ≠ 0) :
    Airbnb.wait_for_element_timeout_sec (some t) = min t 3 ∧
    Airbnb.wait_for_clickable_timeout_sec (some t) = min t 3 ∧
    Airbnb.wait_for_element_timeout_sec (some t) ≤ 3 ∧
    Airbnb.wait_for_element_timeout_sec none = 3 ∧
    Airbnb.wait_for_element_timeout_sec
        (some (Airbnb.wait_for_clickable_timeout_sec (some t))) =
      Airbnb.wait_for_clickable_timeout_sec (some t) := by
  unfold Airbnb.wait_for_element_timeout_sec Airbnb.wait_for_clickable_timeout_sec
    Airbnb.pyOrDefault Airbnb.DEFAULT_WAIT
  simp only [min_def]
  split_ifs <;> simp_all

/-- C10 witness: instantiating the clamp theorem at the timeout value 10
used by the Results stage shows the requested 10-second wait is bounded
to 3. -/
theorem c10_witness :
    (10 : Int) ≠ 0 ∧ Airbnb.wait_for_element_timeout_sec (some 10) = min 10 3 := by
  refine ⟨by decide, (c10_wait_clamped_to_three 10 (by decide)).1⟩

namespace Airbnb

/-! ## Probe Waiter

Source: `Step01LandingAndSearch._wait_for_date_picker_auto_open`
(`automation/steps/step01_landing.py`, lines 159-176), the polling loop

```text
start = time.time()
while time.time() - start < timeout_sec:
    for sel in probes:
        try:
            if page.locator(sel).first.is_visible(timeout=400):
                return True
        except Exception:
            continue
    time.sleep(0.15)
return False
```

Embedding: time is measured in milliseconds.  The oracle
`vis round sel` gives the outcome of the `is_visible` check for selector
`sel` during polling round `round` (`.error ()` models a raised
Playwright evaluation error, which the `except` clause swallows), and
`dur round sel` gives the wall-clock cost of that check in ms.  Each
round ends with a fixed 150 ms sleep.  The deadline test at the top of
the loop compares elapsed time against the deadline. -/

/-- Embedding of one pass of the inner `for sel in probes` loop: scan the
probe selectors in order, returning the first selector whose visibility
check yields `.ok true` together with the total time consumed by the
checks actually performed.  A check that raises (`.error`) or returns
`.ok false` falls through to the next selector. -/
def roundScan (vis : String → Except Unit Bool) (dur : String → Nat) :
    List String → Option String × Nat
  | [] => (none, 0)
  | sel :: rest =>
    match vis sel with
    | .ok true => (some sel, dur sel)
    | _ =>
      let r := roundScan vis dur rest
      (r.1, dur sel + r.2)

/-- Embedding of the polling loop of `_wait_for_date_picker_auto_open`,
generalized over the probe list and deadline exactly as the source
generalizes over `probes` and `timeout_sec`.  Arguments `round` and `t`
are the current polling round and the elapsed time in ms (both `0` at
entry).  Returns the boolean result together with the elapsed time at
the moment of return. -/
def wait_for_any (vis : Nat → String → Except Unit Bool)
    (dur : Nat → String → Nat) (probes : List String) (deadline : Nat)
    (round t : Nat) : Bool × Nat :=
  if t < deadline then
    match roundScan (vis round) (dur round) probes with
    | (some _, d) => (true, t + d)
    | (none, d) => wait_for_any vis dur probes deadline (round + 1) (t + d + 150)
  else (false, t)
termination_by deadline - t
decreasing_by omega

/-- Probe selector list of `_wait_for_date_picker_auto_open` (also used
verbatim by `Step02AutoSuggestion._date_picker_visible` and
`_ensure_date_picker_open`). -/
def datePickerProbes : List String :=
  ["[aria-label=\x27Calendar\x27][role=\x27application\x27]",
   "button[data-state--date-string]",
   "button[aria-label*=\x27Move forward to switch to the\x27]",
   "[data-testid=\x27expanded-searchbar-dates-calendar-tab\x27]"]

/-- Embedding of `_wait_for_date_picker_auto_open` with its default
deadline `timeout_sec = 4.0` (4000 ms). -/
def wait_for_date_picker_auto_open (vis : Nat → String → Except Unit Bool)
    (dur : Nat → String → Nat) : Bool × Nat :=
  wait_for_any vis dur datePickerProbes 4000 0 0

/-- Helper: a successful round scan reports a probe that is in the list
and whose check returned `.ok true`. -/
theorem roundScan_some_mem (vis : String → Except Unit Bool)
    (dur : String → Nat) :
    ∀ l : List String, ∀ sel, (roundScan vis dur l).1 = some sel →
      sel ∈ l ∧ vis sel = .ok true := by
  intro l
  induction l with
  | nil => intro sel h; simp [roundScan] at h
  | cons s rest ih =>
    intro sel h
    rcases hv : vis s with u | b
    · simp only [roundScan, hv] at h
      rcases ih sel h with ⟨hm, ht⟩
      exact ⟨List.mem_cons_of_mem _ hm, ht⟩
    · cases b with
      | true =>
        simp only [roundScan, hv] at h
        cases h
        exact ⟨List.mem_cons_self _ _, hv⟩
      | false =>
        simp only [roundScan, hv] at h
        rcases ih sel h with ⟨hm, ht⟩
        exact ⟨List.mem_cons_of_mem _ hm, ht⟩

/-- Helper: when every probe before `sel` is unsatisfied (errors
included) and the check of `sel` returns `.ok true`, the round scan
returns `sel` having consumed exactly the time of the checks up to and
including `sel`; the scan result does not depend on the probes after
`sel`, which are never consulted. -/
theorem roundScan_first (vis : String → Except Unit Bool)
    (dur : String → Nat) (sel : String) (l2 : List String)
    (hsel : vis sel = .ok true) :
    ∀ l1 : List String, (∀ s ∈ l1, vis s ≠ .ok true) →
      roundScan vis dur (l1 ++ sel :: l2) =
        (some sel, (l1.map dur).sum + dur sel) := by
  intro l1
  induction l1 with
  | nil => intro _; simp [roundScan, hsel]
  | cons s rest ih =>
    intro hno
    have hs : vis s ≠ .ok true := hno s (List.mem_cons_self _ _)
    have hrest : ∀ x ∈ rest, vis x ≠ .ok true :=
      fun x hx => hno x (List.mem_cons_of_mem _ hx)
    rcases hv : vis s with u | b
    · simp only [List.cons_append, roundScan, hv, List.map_cons, List.sum_cons]
      simp [ih hrest, Nat.add_assoc]
    · cases b with
      | true => exact absurd hv hs
      | false =>
        simp only [List.cons_append, roundScan, hv, List.map_cons, List.sum_cons]
        simp [ih hrest, Nat.add_assoc]

/-- Helper: the round scan only looks at whether each check returned
`.ok true`; replacing raised errors by `.ok false` (or conversely)
changes nothing. -/
theorem roundScan_congr (vis vis' : String → Except Unit Bool)
    (dur : String → Nat)
    (hiff : ∀ s, vis s = .ok true ↔ vis' s = .ok true) :
    ∀ l : List String, roundScan vis dur l = roundScan vis' dur l := by
  intro l
  induction l with
  | nil => rfl
  | cons s rest ih =>
    by_cases hs : vis s = .ok true
    · have hs' : vis' s = .ok true := (hiff s).mp hs
      simp [roundScan, hs, hs']
    · have hs' : vis' s ≠ .ok true := fun h => hs ((hiff s).mpr h)
      rcases hv : vis s with u | b
      · rcases hv' : vis' s with u' | b'
        · simp [roundScan, hv, hv', ih]
        · cases b' with
          | true => exact absurd hv' hs'
          | false => simp [roundScan, hv, hv', ih]
      · cases b with
        | true => exact absurd hv hs
        | false =>
          rcases hv' : vis' s with u' | b'
          · simp [roundScan, hv, hv', ih]
          · cases b' with
            | true => exact absurd hv' hs'
            | false => simp [roundScan, hv, hv', ih]

/-- Helper: the polling loop returns `false` only with elapsed time at or
past the deadline. -/
theorem wait_for_any_false_ge (vis : Nat → String → Except Unit Bool)
    (dur : Nat → String → Nat) (probes : List String) (deadline : Nat) :
    ∀ round t, (wait_for_any vis dur probes deadline round t).1 = false →
      deadline ≤ (wait_for_any vis dur probes deadline round t).2 := by
  intro round t
  induction round, t using wait_for_any.induct vis dur probes deadline with
  | case1 round t hlt sel d heq =>
    intro hfalse
    rw [wait_for_any, if_pos hlt, heq] at hfalse
    simp at hfalse
  | case2 round t hlt d heq ih =>
    intro hfalse
    rw [wait_for_any, if_pos hlt, heq] at hfalse ⊢
    exact ih hfalse
  | case3 round t hge =>
    intro _
    rw [wait_for_any, if_neg hge]
    omega

/-- Helper: the polling loop returns `true` only because some probe of
some round returned `.ok true`. -/
theorem wait_for_any_true_sat (vis : Nat → String → Except Unit Bool)
    (dur : Nat → String → Nat) (probes : List String) (deadline : Nat) :
    ∀ round t, (wait_for_any vis dur probes deadline round t).1 = true →
      ∃ r sel, sel ∈ probes ∧ vis r sel = .ok true := by
  intro round t
  induction round, t using wait_for_any.induct vis dur probes deadline with
  | case1 round t hlt sel d heq =>
    intro _
    have hmem := roundScan_some_mem (vis round) (dur round) probes sel
      (by rw [heq])
    exact ⟨round, sel, hmem⟩
  | case2 round t hlt d heq ih =>
    intro htrue
    rw [wait_for_any, if_pos hlt, heq] at htrue
    exact ih htrue
  | case3 round t hge =>
    intro htrue
    rw [wait_for_any, if_neg hge] at htrue
    simp at htrue

/-- Helper: the polling loop does not distinguish a raised probe error
from an unsatisfied probe. -/
theorem wait_for_any_congr (vis vis' : Nat → String → Except Unit Bool)
    (dur : Nat → String → Nat) (probes : List String) (deadline : Nat)
    (hiff : ∀ r s, vis r s = .ok true ↔ vis' r s = .ok true) :
    ∀ round t, wait_for_any vis dur probes deadline round t =
      wait_for_any vis' dur probes deadline round t := by
  intro round t
  induction round, t using wait_for_any.induct vis dur probes deadline with
  | case1 round t hlt sel d heq =>
    have h1 : wait_for_any vis dur probes deadline round t = (true, t + d) := by
      rw [wait_for_any, if_pos hlt, heq]
    have h2 : wait_for_any vis' dur probes deadline round t = (true, t + d) := by
      rw [wait_for_any, if_pos hlt,
        ← roundScan_congr (vis round) (vis' round) (dur round) (hiff round) probes,
        heq]
    rw [h1, h2]
  | case2 round t hlt d heq ih =>
    have h1 : wait_for_any vis dur probes deadline round t =
        wait_for_any vis dur probes deadline (round + 1) (t + d + 150) := by
      rw [wait_for_any, if_pos hlt, heq]
    have h2 : wait_for_any vis' dur probes deadline round t =
        wait_for_any vis' dur probes deadline (round + 1) (t + d + 150) := by
      rw [wait_for_any, if_pos hlt,
        ← roundScan_congr (vis round) (vis' round) (dur round) (hiff round) probes,
        heq]
    rw [h1, h2]
    exact ih
  | case3 round t hge =>
    rw [wait_for_any, if_neg hge, wait_for_any, if_neg hge]

end Airbnb

open Airbnb

/-! ### C2 theorem -/

/-- C2: contract of the probe-wait loop
(`_wait_for_date_picker_auto_open`), for every probe list and deadline.
(1) If the loop returns `false`, the elapsed time at return is at least
the deadline — `false` is never returned early.  (2) If, in the current
round, every probe before `sel` is unsatisfied and the check of `sel`
succeeds, the loop returns `true` immediately, having consulted only the
probes up to `sel`: the result is independent of the remaining probes
`l2` of that round.  (3) A probe evaluation error is treated exactly as
"not yet satisfied": replacing errors by `false` outcomes (or any change
preserving which checks return `.ok true`) leaves the result unchanged,
so an error never aborts the wait.  (4) The loop returns `true` only if
some probe check actually returned `.ok true`. -/
theorem c2_wait_for_any_contract
    (vis vis' : Nat → String → Except Unit Bool)
    (dur : Nat → String → Nat) (probes l1 l2 : List String) (sel : String)
    (deadline round t : Nat) :
    ((wait_for_any vis dur probes deadline round t).1 = false →
        deadline ≤ (wait_for_any vis dur probes deadline round t).2) ∧
    ((∀ s ∈ l1, vis round s ≠ .ok true) → vis round sel = .ok true →
      t < deadline →
        wait_for_any vis dur (l1 ++ sel :: l2) deadline round t =
          (true, t + ((l1.map (dur round)).sum + dur round sel))) ∧
    ((∀ r s, vis r s = .ok true ↔ vis' r s = .ok true) →
        wait_for_any vis dur probes deadline round t =
          wait_for_any vis' dur probes deadline round t) ∧
    ((wait_for_any vis dur probes deadline round t).1 = true →
        ∃ r s, s ∈ probes ∧ vis r s = .ok true) := by
  refine ⟨Airbnb.wait_for_any_false_ge vis dur probes deadline round t,
    ?_, fun hiff => Airbnb.wait_for_any_congr vis vis' dur probes deadline hiff round t,
    Airbnb.wait_for_any_true_sat vis dur probes deadline round t⟩
  intro hno hsel hlt
  rw [wait_for_any, if_pos hlt,
    Airbnb.roundScan_first (vis round) (dur round) sel l2 hsel l1 hno]

/-- C2 witness: with every check succeeding instantly-satisfied on the
single-probe list, starting inside the deadline, the loop returns `true`
at once with only that check consulted. -/
theorem c2_witness :
    Airbnb.wait_for_any (fun _ _ => .ok true) (fun _ _ => 5)
        ([] ++ "button[data-state--date-string]" :: []) 4000 0 0 =
      (true, 0 + ((([] : List String).map ((fun _ _ => 5) 0)).sum + 5)) := by
  exact (c2_wait_for_any_contract (fun _ _ => .ok true) (fun _ _ => .ok true)
    (fun _ _ => 5) [] [] [] "button[data-state--date-string]" 4000 0 0).2.1
    (by simp) rfl (by decide)

namespace Airbnb

/-! ## Core page model

The interaction layer is embedded against an abstract page oracle.  A
`Loc` is a Playwright locator expression exactly as the automation code
builds one; the `Env` structure gives, for one page snapshot, the outcome
of every query or interaction primitive the code can invoke (with
`.error` modelling a raised Playwright exception).  Mutating operations
are additionally logged as events so that theorems can speak about which
interactions a code path performs.  `StageResult` hand-offs to the result
sink (`db.save_test_result` call sites) are logged in the same state. -/

/-- Playwright locator expressions as constructed by the code under
`automation/`. -/
inductive Loc where
  | css (s : String)
  | testId (s : String)
  | role (r : String) (name : String)
  | roleRe (r : String) (pat : String)
  | roleAny (r : String)
  | placeholderSel (s : String)
  | textSel (s : String) (exact : Bool)
  | labelSel (s : String) (exact : Bool)
  | nthLoc (l : Loc) (i : Nat)
  | firstLoc (l : Loc)
  | sub (l : Loc) (s : String)
  | filterHasText (l : Loc) (s : String)
  deriving DecidableEq, Repr

/-- Raised Playwright exceptions, split by whether the automation code
distinguishes them: `PlaywrightTimeoutError` is caught separately in
`step01_landing.py` and `step05_results.py`. -/
inductive Err where
  | timeout
  | other
  deriving DecidableEq, Repr

/-- Page interactions performed by a code path (logged on success). -/
inductive Ev where
  | click (l : Loc)
  | fill (l : Loc) (s : String)
  | typeText (l : Loc) (s : String)
  | press (k : String)
  | pressOn (l : Loc) (k : String)
  | mouse (x y : Rat)
  | goto (u : String)
  | evalClick (l : Loc)
  | evalJs (tag : String)
  | screenshot (tag : String)
  | scroll
  deriving DecidableEq, Repr

/-- Run state: `trs` is the ordered list of `StageResult` hand-offs
`(stage, test_case, passed)` made to the result sink, `evs` the ordered
list of page interactions performed. -/
structure St where
  trs : List (Nat × String × Bool)
  evs : List Ev
  deriving DecidableEq, Repr

/-- State-and-exception monad for the embedded interaction code: Python
`try/except` keeps all side effects performed before the exception, so
the state survives an error. -/
def M (α : Type) : Type := St → Except Err α × St

instance : Monad M where
  pure a := fun s => (.ok a, s)
  bind x f := fun s =>
    match x s with
    | (.ok a, s') => f a s'
    | (.error e, s') => (.error e, s')

/-- Raise a Playwright exception. -/
def mRaise (e : Err) : M α := fun s => (.error e, s)

/-- Consult a pure oracle outcome, re-raising its error. -/
def liftE (x : Except Err α) : M α := fun s => (x, s)

/-- Log a performed interaction. -/
def emit (ev : Ev) : M Unit := fun s => (.ok (), ⟨s.trs, s.evs ++ [ev]⟩)

/-- Embedding of a `db.save_test_result(...)` call site: hand one
`StageResult` to the result sink.  The `stage` tag identifies the stage
object making the call (bookkeeping only; it does not exist as a runtime
argument in the source). -/
def record (stage : Nat) (tc : String) (passed : Bool) : M Unit :=
  fun s => (.ok (), ⟨s.trs ++ [(stage, tc, passed)], s.evs⟩)

/-- Python `try: x except Exception: pass`-style fallback to a default
value; side effects performed before the exception are kept. -/
def attempt (x : M α) (d : α) : M α := fun s =>
  match x s with
  | (.ok a, s') => (.ok a, s')
  | (.error _, s') => (.ok d, s')

/-- Python `try: x except PlaywrightTimeoutError: h`: only timeout
errors are handled, other exceptions propagate. -/
def attemptTimeout (x : M α) (h : M α) : M α := fun s =>
  match x s with
  | (.ok a, s') => (.ok a, s')
  | (.error .timeout, s') => h s'
  | (.error .other, s') => (.error .other, s')

@[simp] theorem run_pure (a : α) (s : St) :
    (pure a : M α) s = (.ok a, s) := rfl

@[simp] theorem run_bind (x : M α) (f : α → M β) (s : St) :
    (x >>= f) s =
      match x s with
      | (.ok a, s') => f a s'
      | (.error e, s') => (.error e, s') := rfl

@[simp] theorem run_liftE_ok (a : α) (s : St) :
    liftE (.ok a) s = (.ok a, s) := rfl

@[simp] theorem run_liftE_error (e : Err) (s : St) :
    (liftE (.error e) : M α) s = (.error e, s) := rfl

@[simp] theorem run_emit (ev : Ev) (s : St) :
    emit ev s = (.ok (), ⟨s.trs, s.evs ++ [ev]⟩) := rfl

@[simp] theorem run_record (n : Nat) (tc : String) (p : Bool) (s : St) :
    record n tc p s = (.ok (), ⟨s.trs ++ [(n, tc, p)], s.evs⟩) := rfl

/-- Page snapshot oracle: outcomes of every primitive the embedded code
can invoke.  `visible l ms` is `locator.is_visible(timeout=ms)` (with
`ms = 0` for calls that pass no timeout), `waitVisible l ms` is
`locator.wait_for(state='visible', timeout=ms)`, `evalBool`/`evalUnit`
tag `page.evaluate` scripts by name.  The oracle describes one fixed
snapshot of the page; theorems quantify over it. -/
structure Env where
  url : String
  gotoRes : String → Except Err Unit
  loadStateRes : Except Err Unit
  waitSelectorRes : Loc → Except Err Unit
  count : Loc → Except Err Nat
  visible : Loc → Nat → Except Err Bool
  enabled : Loc → Except Err Bool
  waitVisible : Loc → Nat → Except Err Unit
  clickRes : Loc → Except Err Unit
  fillRes : Loc → String → Except Err Unit
  typeRes : Loc → String → Except Err Unit
  pressRes : String → Except Err Unit
  pressOnRes : Loc → String → Except Err Unit
  evalBool : String → Except Err Bool
  evalUnit : String → Except Err Unit
  evalClickRes : Loc → Except Err Unit
  attr : Loc → String → Except Err (Option String)
  innerText : Loc → Except Err String
  textContent : Loc → Except Err (Option String)
  bbox : Loc → Except Err (Option (Rat × Rat × Rat × Rat))
  mouseClickRes : Rat → Rat → Except Err Unit
  tagName : Loc → Except Err String
  scrollIntoViewRes : Loc → Except Err Unit
  evalDates : Except Err (Bool × List String)
  popupRounds : Nat
  pollRounds : Nat

/-- Interaction `locator.click(...)`: consult the oracle, log on
success. -/
def doClick (env : Env) (l : Loc) : M Unit := do
  liftE (env.clickRes l)
  emit (.click l)

/-- Interaction `locator.fill(text)`. -/
def doFill (env : Env) (l : Loc) (text : String) : M Unit := do
  liftE (env.fillRes l text)
  emit (.fill l text)

/-- Interaction `locator.type(text, delay=...)`. -/
def doType (env : Env) (l : Loc) (text : String) : M Unit := do
  liftE (env.typeRes l text)
  emit (.typeText l text)

/-- Interaction `page.keyboard.press(key)`. -/
def doPress (env : Env) (key : String) : M Unit := do
  liftE (env.pressRes key)
  emit (.press key)

/-- Interaction `locator.press(key)`. -/
def doPressOn (env : Env) (l : Loc) (key : String) : M Unit := do
  liftE (env.pressOnRes l key)
  emit (.pressOn l key)

/-- Interaction `page.mouse.click(x, y)`. -/
def doMouse (env : Env) (x y : Rat) : M Unit := do
  liftE (env.mouseClickRes x y)
  emit (.mouse x y)

/-- Interaction `page.goto(url, ...)`. -/
def doGoto (env : Env) (u : String) : M Unit := do
  liftE (env.gotoRes u)
  emit (.goto u)

/-- Interaction `locator.evaluate("el => el.click()")`. -/
def doEvalClick (env : Env) (l : Loc) : M Unit := do
  liftE (env.evalClickRes l)
  emit (.evalClick l)

/-- Interaction `page.evaluate(script)` for effect-only scripts. -/
def doEvalUnit (env : Env) (tag : String) : M Unit := do
  liftE (env.evalUnit tag)
  emit (.evalJs tag)

end Airbnb

namespace Airbnb

/-- Python substring test `needle in hay`. -/
def strContains (hay needle : String) : Bool :=
  decide (needle.toList <:+: hay.toList)

/-! ## BrowserService (`automation/services/browser_service.py`) -/

/-- Embedding of `BrowserService._selector`: strip, keep `xpath=`
selectors, and give xpath syntax an `xpath=` tag. -/
def pySelector (selector : String) : String :=
  let selector := selector.trim
  if selector.startsWith "xpath=" then selector
  else if selector.startsWith "//" || selector.startsWith "(//" ||
      selector.startsWith ".//" then "xpath=" ++ selector
  else selector

/-- Embedding of `BrowserService.wait_for_element`: clamp the timeout
(see `wait_for_element_timeout_sec`), then wait until
`page.locator(_selector(selector)).first` is visible, raising on
timeout, and return that locator. -/
def wait_for_element (env : Env) (selector : String) (timeout : Option Int) :
    M Loc :=
  let timeoutMs := (wait_for_element_timeout_sec timeout * 1000).toNat
  let loc := Loc.firstLoc (Loc.css (pySelector selector))
  do
    liftE (env.waitVisible loc timeoutMs)
    pure loc

/-- Polling loop of `BrowserService.wait_for_clickable`: retry
`loc.is_enabled()` (exceptions swallowed) with 0.1 s sleeps until the
clamped deadline, then return the locator regardless; `fuel` is the
number of polls the wall clock allows. -/
def wait_for_clickable_go (env : Env) (loc : Loc) : Nat → M Loc
  | 0 => pure loc
  | fuel + 1 =>
    match env.enabled loc with
    | .ok true => pure loc
    | _ => wait_for_clickable_go env loc fuel

/-- Embedding of `BrowserService.wait_for_clickable`. -/
def wait_for_clickable (env : Env) (selector : String) (timeout : Option Int) :
    M Loc := do
  let timeoutSec := wait_for_clickable_timeout_sec timeout
  let loc ← wait_for_element env selector (some timeoutSec)
  wait_for_clickable_go env loc (timeoutSec.toNat * 10)

/-- Embedding of `BrowserService.safe_find`: first element of the
selector when the match count is positive, `None` otherwise; locator
errors are swallowed into `None`. -/
def safe_find (env : Env) (selector : String) : Option Loc :=
  match env.count (Loc.css (pySelector selector)) with
  | .ok n => if n > 0 then some (Loc.firstLoc (Loc.css (pySelector selector))) else none
  | .error _ => none

/-- Embedding of `BrowserService.safe_find_all`: the elements
`loc.nth 0 .. loc.nth (count-1)`, or `[]` on any error. -/
def safe_find_all (env : Env) (selector : String) : List Loc :=
  match env.count (Loc.css (pySelector selector)) with
  | .ok n => (List.range n).map (fun i => Loc.nthLoc (Loc.css (pySelector selector)) i)
  | .error _ => []

/-- Embedding of `BrowserService.take_screenshot`; purely diagnostic:
failures are swallowed and only the attempt is observable. -/
def take_screenshot (tag : String) : M Unit := emit (.screenshot tag)

/-- Embedding of `BrowserService.slow_type` as called by the stages
(always with `clear_first=False`); the per-character delay is part of
the oracle outcome. -/
def slow_type (env : Env) (element : Loc) (text : String) : M Unit :=
  doType env element text

/-- Embedding of `BrowserService.scroll_to_bottom`. -/
def scroll_to_bottom (env : Env) : M Unit := doEvalUnit env "scrollToBottom"

end Airbnb

namespace Airbnb

/-! ## Step 02 — Auto-suggestion (`automation/steps/step02_suggestion.py`) -/

/-- Python `try: x except Exception: h`-style handler that runs a
fallback computation. -/
def attemptWith (x : M α) (h : M α) : M α := fun s =>
  match x s with
  | (.ok a, s') => (.ok a, s')
  | (.error _, s') => h s'

/-- Embedding of the probe scan of `_date_picker_visible`: each probe
check is individually wrapped in `try/except: continue`, so an error
falls through to the next probe. -/
def date_picker_visible_scan (env : Env) : List String → Bool
  | [] => false
  | sel :: rest =>
    match env.visible (Loc.firstLoc (Loc.css sel)) 700 with
    | .ok true => true
    | _ => date_picker_visible_scan env rest

/-- Embedding of `Step02AutoSuggestion._date_picker_visible`. -/
def date_picker_visible (env : Env) : Bool :=
  date_picker_visible_scan env datePickerProbes

/-- One pass over the probes in the re-check loops of
`_ensure_date_picker_open` (and the deterministic flow): there the
`try` wraps the whole `for`, so an error aborts the remaining probes of
that round. -/
def probeRoundAbortScan (env : Env) (ms : Nat) : List String → Bool
  | [] => false
  | sel :: rest =>
    match env.visible (Loc.firstLoc (Loc.css sel)) ms with
    | .ok true => true
    | .ok false => probeRoundAbortScan env ms rest
    | .error _ => false

/-- Bounded re-check loop (`while time.time() - start < 1.5` with
0.12 s sleeps) polling the probes; `fuel` is the number of rounds the
wall clock allows. -/
def probeWaitAbort (env : Env) (ms : Nat) (probes : List String) :
    Nat → Bool
  | 0 => false
  | fuel + 1 =>
    if probeRoundAbortScan env ms probes then true
    else probeWaitAbort env ms probes fuel

/-- Candidate selector list of `_top_suggestion_candidates`, in source
order. -/
def step02Selectors : List String :=
  ["[data-testid=\x27option-0\x27]",
   "[data-testid=\x27autocomplete-menu\x27] [role=\x27option\x27]:visible",
   "[data-testid=\x27autocomplete-menu\x27] li:visible",
   "[data-testid=\x27autocomplete-menu\x27] button:visible",
   "[role=\x27listbox\x27]:visible [role=\x27option\x27]:visible",
   "[role=\x27listbox\x27]:visible li:visible",
   "[role=\x27listbox\x27]:visible button:visible",
   "[id^=\x27autocomplete-item-\x27]:visible",
   "[id*=\x27autocomplete-item-\x27]:visible",
   "[data-testid*=\x27autocomplete-item\x27]:visible",
   "[data-testid*=\x27option\x27]:visible",
   "[data-testid*=\x27autocomplete\x27]:visible [role=\x27option\x27]:visible",
   "[data-testid*=\x27suggestion\x27]:visible",
   "[data-testid=\x27autocomplete-menu\x27] [role=\x27option\x27]",
   "[data-testid*=\x27autocomplete\x27] [role=\x27option\x27]",
   "[role=\x27listbox\x27] [role=\x27option\x27]"]

/-- Catch-all locator returned by `_top_suggestion_candidates` when no
candidate selector matches. -/
def step02Fallback : Loc :=
  Loc.css "[id^=\x27autocomplete-item-\x27], [data-testid*=\x27autocomplete\x27]"

/-- Core loop of `_top_suggestion_candidates`, generalized over the
candidate list exactly as the source loops over `selectors`: return the
locator of the first candidate whose match count is positive; if none
matches, return the catch-all fallback locator.  A raised error from
`count` propagates (the source has no `try` here). -/
def resolveFirstNonempty (env : Env) : List String → Loc → Except Err Loc
  | [], fallback => .ok fallback
  | sel :: rest, fallback =>
    match env.count (Loc.css sel) with
    | .error e => .error e
    | .ok n => if n > 0 then .ok (Loc.css sel) else resolveFirstNonempty env rest fallback

/-- Embedding of `Step02AutoSuggestion._top_suggestion_candidates`. -/
def top_suggestion_candidates (env : Env) : Except Err Loc :=
  resolveFirstNonempty env step02Selectors step02Fallback

/-- Embedding of `Step02AutoSuggestion._wait_for_suggestions`. -/
def wait_for_suggestions (env : Env) : Except Err Bool :=
  match top_suggestion_candidates env with
  | .error e => .error e
  | .ok rows =>
    match env.count rows with
    | .error e => .error e
    | .ok 0 => .ok false
    | .ok (_ + 1) =>
      match env.visible (Loc.firstLoc rows) 2500 with
      | .ok b => .ok b
      | .error _ => .ok false

/-- Embedding of the suggestion-text collection loop in
`Step02AutoSuggestion.run` (`for i in range(min(row_count, 8))`):
visible rows contribute their first non-empty of
`inner_text`/`text_content`, stripped; rows raising an error are
skipped. -/
def collectTexts (env : Env) (rows : Loc) : List Nat → List String
  | [] => []
  | i :: rest =>
    let tail := collectTexts env rows rest
    let cand := Loc.nthLoc rows i
    let txtOpt : Option String :=
      match env.visible cand 0 with
      | .ok true =>
        match env.innerText cand with
        | .error _ => none
        | .ok it =>
          if it ≠ "" then some it.trim
          else
            match env.textContent cand with
            | .error _ => none
            | .ok (some tc) => some tc.trim
            | .ok none => some ""
      | _ => none
    match txtOpt with
    | some t => if t ≠ "" then t :: tail else tail
    | none => tail

/-- Direct click selectors of `_click_top_suggestion`, in source
order. -/
def step02DirectSelectors : List String :=
  ["[id^=\x27autocomplete-item-\x27] button:visible",
   "[id^=\x27autocomplete-item-\x27] [role=\x27option\x27]:visible",
   "[id^=\x27autocomplete-item-\x27]:visible",
   "[data-testid=\x27autocomplete-menu\x27] [role=\x27option\x27] button:visible",
   "[data-testid=\x27autocomplete-menu\x27] [role=\x27option\x27]:visible",
   "[role=\x27listbox\x27]:visible [role=\x27option\x27]:visible"]

/-- Inner `for attempt in range(2)` retry loop of
`_click_top_suggestion` for one direct selector. -/
def clickDirectAttempts (env : Env) (loc : Loc) : Nat → M Bool
  | 0 => pure false
  | fuel + 1 => do
    let r ← attempt (do
        let vis ← liftE (env.visible (Loc.firstLoc loc) 1200)
        if !vis then pure none
        else do
          liftE (env.scrollIntoViewRes (Loc.firstLoc loc))
          doClick env (Loc.firstLoc loc)
          pure (some true)) none
    match r with
    | some b => pure b
    | none => clickDirectAttempts env loc fuel

/-- Loop of `_click_top_suggestion` over the direct selectors; the
`loc.count()` call is not guarded by `try`, so its errors propagate. -/
def clickDirectSelLoop (env : Env) : List String → M Bool
  | [] => pure false
  | sel :: rest => do
    let n ← liftE (env.count (Loc.css sel))
    if n == 0 then clickDirectSelLoop env rest
    else do
      let r ← clickDirectAttempts env (Loc.css sel) 2
      if r then pure true else clickDirectSelLoop env rest

/-- Row-click loop of `_click_top_suggestion`: prefer clicking an
actionable child, else the row itself; each iteration is wrapped in
`try/except: continue`. -/
def clickRowsLoop (env : Env) (rows : Loc) : List Nat → M Bool
  | [] => pure false
  | i :: rest => do
    let row := Loc.nthLoc rows i
    let r ← attempt (do
        let vis ← liftE (env.visible row 1200)
        if !vis then pure none
        else do
          let action := Loc.firstLoc (Loc.sub row "button, a, [role=\x27option\x27]")
          let acnt ← liftE (env.count action)
          let avis ← if acnt > 0 then liftE (env.visible action 1000) else pure false
          if acnt > 0 && avis then doClick env action
          else do
            liftE (env.scrollIntoViewRes row)
            doClick env row
          pure (some true)) none
    match r with
    | some true => pure true
    | _ => clickRowsLoop env rows rest

/-- Bounding-box fallback loop of `_click_top_suggestion`: click the
first visible row with a box wider and taller than 5 px by mouse
coordinates. -/
def clickRowsBBoxLoop (env : Env) (rows : Loc) : List Nat → M Bool
  | [] => pure false
  | i :: rest => do
    let row := Loc.nthLoc rows i
    let r ← attempt (do
        let vis ← liftE (env.visible row 1000)
        if !vis then pure none
        else do
          let box ← liftE (env.bbox row)
          match box with
          | some (x, y, w, h) =>
            if w > 5 ∧ h > 5 then do
              doMouse env (x + min 20 (w / 2)) (y + h / 2)
              pure (some true)
            else pure none
          | none => pure none) none
    match r with
    | some true => pure true
    | _ => clickRowsBBoxLoop env rows rest

/-- Embedding of `Step02AutoSuggestion._click_top_suggestion`. -/
def click_top_suggestion (env : Env) : M Bool := do
  let r1 ← attempt (do
      let vis ← liftE (env.visible (Loc.testId "option-0") 1800)
      if vis then do
        doClick env (Loc.testId "option-0")
        pure true
      else pure false) false
  if r1 then pure true
  else do
    let r2 ← clickDirectSelLoop env step02DirectSelectors
    if r2 then pure true
    else do
      let rows ← liftE (top_suggestion_candidates env)
      let total ← liftE (env.count rows)
      let r3 ← clickRowsLoop env rows (List.range total)
      if r3 then pure true
      else clickRowsBBoxLoop env rows (List.range total)

/-- Date-opener locators of `_ensure_date_picker_open`, in source
order.  Every Playwright locator has a `.first` attribute, so the
source's `opener.first if hasattr(opener, "first") else opener` always
takes `.first`. -/
def step02Openers : List Loc :=
  [Loc.role "button" "When Add dates",
   Loc.role "button" "Check in",
   Loc.role "button" "Add dates",
   Loc.firstLoc (Loc.css "[data-testid*=\x27structured-search-input-field-split-dates-0\x27]"),
   Loc.firstLoc (Loc.css "[data-testid*=\x27structured-search-input-field-dates\x27]"),
   Loc.firstLoc (Loc.css "[data-testid=\x27little-search\x27]")]

/-- Opener loop of `_ensure_date_picker_open`: click an opener via
in-page evaluate (falling back to a normal click), then poll the
calendar probes for up to 1.5 s. -/
def ensure_date_picker_open_loop (env : Env) : List Loc → M Bool
  | [] => pure false
  | opener :: rest => do
    let r ← attempt (do
        let btn := Loc.firstLoc opener
        let vis ← liftE (env.visible btn 800)
        if !vis then pure false
        else do
          attemptWith (doEvalClick env btn) (attempt (doClick env btn) ())
          pure (probeWaitAbort env 300 datePickerProbes env.pollRounds)) false
    if r then pure true else ensure_date_picker_open_loop env rest

/-- Embedding of `Step02AutoSuggestion._ensure_date_picker_open`. -/
def ensure_date_picker_open (env : Env) : M Bool := do
  if date_picker_visible env then pure true
  else do
    let r ← ensure_date_picker_open_loop env step02Openers
    if r then pure true
    else
      attempt (do
        attempt (doPress env "Enter") ()
        pure (probeWaitAbort env 300 datePickerProbes env.pollRounds)) false

/-- Embedding of `Step02AutoSuggestion.run`.  `db.save_suggestions` is a
bulk hand-off to the sink of non-`StageResult` data and is not recorded;
the collected texts are still computed so that the page reads happen. -/
def step02_run (env : Env) (search_query : String) : M Bool := do
  let _currentUrl := env.url
  let _query := search_query
  if date_picker_visible env then do
    record 2 "Auto-suggestion List Visibility" true
    record 2 "Auto-suggestion Selection and Click" true
    pure true
  else do
    let suggestions_visible ← liftE (wait_for_suggestions env)
    take_screenshot "step02_suggestions_visible"
    record 2 "Auto-suggestion List Visibility" suggestions_visible
    if !suggestions_visible then do
      record 2 "Auto-suggestion Selection and Click" true
      pure true
    else do
      let rows ← liftE (top_suggestion_candidates env)
      let row_count ← liftE (env.count rows)
      let _texts := collectTexts env rows (List.range (min row_count 8))
      let clicked ← click_top_suggestion env
      take_screenshot "step02_suggestion_clicked"
      let clicked ←
        if clicked && !(date_picker_visible env) then
          attempt (do
            let opened ← ensure_date_picker_open env
            pure (if opened then true else clicked)) clicked
        else pure clicked
      record 2 "Auto-suggestion Selection and Click" clicked
      pure clicked

end Airbnb

namespace Airbnb

/-! ## Concrete environments and the suggestion DOM model -/

/-- Page snapshot on which every locator query fails to produce an
element: all match counts are zero, nothing is visible or enabled, every
interaction raises, while navigation and page readiness succeed.  Used
both as the all-candidates-fail scenario and as the base for other
concrete snapshots. -/
def allFailEnv : Env where
  url := "https://www.airbnb.com/"
  gotoRes := fun _ => .ok ()
  loadStateRes := .ok ()
  waitSelectorRes := fun _ => .error .timeout
  count := fun _ => .ok 0
  visible := fun _ _ => .ok false
  enabled := fun _ => .ok false
  waitVisible := fun _ _ => .error .timeout
  clickRes := fun _ => .error .other
  fillRes := fun _ _ => .error .other
  typeRes := fun _ _ => .error .other
  pressRes := fun _ => .ok ()
  pressOnRes := fun _ _ => .error .other
  evalBool := fun _ => .ok false
  evalUnit := fun _ => .ok ()
  evalClickRes := fun _ => .error .other
  attr := fun _ _ => .ok none
  innerText := fun _ => .ok ""
  textContent := fun _ => .ok none
  bbox := fun _ => .ok none
  mouseClickRes := fun _ _ => .error .other
  tagName := fun _ => .ok ""
  scrollIntoViewRes := fun _ => .error .other
  evalDates := .error .other
  popupRounds := 2
  pollRounds := 2

instance {ε α : Type} [DecidableEq ε] [DecidableEq α] :
    DecidableEq (Except ε α) := fun x y =>
  match x, y with
  | .ok a, .ok b =>
    if h : a = b then .isTrue (by rw [h])
    else .isFalse (by intro hh; cases hh; exact h rfl)
  | .error a, .error b =>
    if h : a = b then .isTrue (by rw [h])
    else .isFalse (by intro hh; cases hh; exact h rfl)
  | .ok _, .error _ => .isFalse (by intro hh; cases hh)
  | .error _, .ok _ => .isFalse (by intro hh; cases hh)

/-- Element attributes relevant to the selectors of
`_top_suggestion_candidates`. -/
structure NodeAttrs where
  tag : String
  idAttr : String
  testid : String
  roleAttr : String
  vis : Bool
  deriving DecidableEq, Repr

/-- A DOM node: its own attributes plus those of its ancestors. -/
structure DomNode where
  attrs : NodeAttrs
  ancestors : List NodeAttrs
  deriving DecidableEq, Repr

/-- Ancestor test for descendant-combinator selectors. -/
def hasAnc (n : DomNode) (p : NodeAttrs → Bool) : Bool := n.ancestors.any p

/-- Interpretation of the CSS selectors appearing in
`_top_suggestion_candidates` over a `DomNode`: attribute equality
(`[a=v]`), prefix (`[a^=v]`) and substring (`[a*=v]`) tests, the
`:visible` pseudo-class, element-type selectors, the descendant
combinator, and the comma union of the catch-all. -/
def cssMatch (s : String) (n : DomNode) : Bool :=
  if s = "[data-testid=\x27option-0\x27]" then n.attrs.testid == "option-0"
  else if s = "[data-testid=\x27autocomplete-menu\x27] [role=\x27option\x27]:visible" then
    n.attrs.roleAttr == "option" && n.attrs.vis && hasAnc n (fun a => a.testid == "autocomplete-menu")
  else if s = "[data-testid=\x27autocomplete-menu\x27] li:visible" then
    n.attrs.tag == "li" && n.attrs.vis && hasAnc n (fun a => a.testid == "autocomplete-menu")
  else if s = "[data-testid=\x27autocomplete-menu\x27] button:visible" then
    n.attrs.tag == "button" && n.attrs.vis && hasAnc n (fun a => a.testid == "autocomplete-menu")
  else if s = "[role=\x27listbox\x27]:visible [role=\x27option\x27]:visible" then
    n.attrs.roleAttr == "option" && n.attrs.vis && hasAnc n (fun a => a.roleAttr == "listbox" && a.vis)
  else if s = "[role=\x27listbox\x27]:visible li:visible" then
    n.attrs.tag == "li" && n.attrs.vis && hasAnc n (fun a => a.roleAttr == "listbox" && a.vis)
  else if s = "[role=\x27listbox\x27]:visible button:visible" then
    n.attrs.tag == "button" && n.attrs.vis && hasAnc n (fun a => a.roleAttr == "listbox" && a.vis)
  else if s = "[id^=\x27autocomplete-item-\x27]:visible" then
    n.attrs.idAttr.startsWith "autocomplete-item-" && n.attrs.vis
  else if s = "[id*=\x27autocomplete-item-\x27]:visible" then
    strContains n.attrs.idAttr "autocomplete-item-" && n.attrs.vis
  else if s = "[data-testid*=\x27autocomplete-item\x27]:visible" then
    strContains n.attrs.testid "autocomplete-item" && n.attrs.vis
  else if s = "[data-testid*=\x27option\x27]:visible" then
    strContains n.attrs.testid "option" && n.attrs.vis
  else if s = "[data-testid*=\x27autocomplete\x27]:visible [role=\x27option\x27]:visible" then
    n.attrs.roleAttr == "option" && n.attrs.vis &&
      hasAnc n (fun a => strContains a.testid "autocomplete" && a.vis)
  else if s = "[data-testid*=\x27suggestion\x27]:visible" then
    strContains n.attrs.testid "suggestion" && n.attrs.vis
  else if s = "[data-testid=\x27autocomplete-menu\x27] [role=\x27option\x27]" then
    n.attrs.roleAttr == "option" && hasAnc n (fun a => a.testid == "autocomplete-menu")
  else if s = "[data-testid*=\x27autocomplete\x27] [role=\x27option\x27]" then
    n.attrs.roleAttr == "option" && hasAnc n (fun a => strContains a.testid "autocomplete")
  else if s = "[role=\x27listbox\x27] [role=\x27option\x27]" then
    n.attrs.roleAttr == "option" && hasAnc n (fun a => a.roleAttr == "listbox")
  else if s = "[id^=\x27autocomplete-item-\x27], [data-testid*=\x27autocomplete\x27]" then
    n.attrs.idAttr.startsWith "autocomplete-item-" || strContains n.attrs.testid "autocomplete"
  else false

/-- Page snapshot realizing a DOM (document-order node list) for the
suggestion selectors: match counts come from `cssMatch`, everything else
behaves as in `allFailEnv`. -/
def suggestionDomEnv (dom : List DomNode) : Env :=
  { allFailEnv with
    count := fun l =>
      match l with
      | Loc.css s => .ok (dom.filter (cssMatch s)).length
      | _ => .ok 0 }

/-- An invisible element carrying `data-testid="autocomplete-x"`: it
matches none of the sixteen candidate selectors (they demand visibility,
a role/tag, or a more specific attribute) but does match the catch-all
fallback selector. -/
def ghostSuggestionNode : DomNode :=
  ⟨⟨"div", "", "autocomplete-x", "", false⟩, []⟩

/-- Helper: the resolver returns the fallback when every candidate has
match count zero. -/
theorem resolveFirstNonempty_all_empty (env : Env) (fallback : Loc) :
    ∀ sels : List String, (∀ x ∈ sels, env.count (Loc.css x) = .ok 0) →
      resolveFirstNonempty env sels fallback = .ok fallback := by
  intro sels
  induction sels with
  | nil => intro _; rfl
  | cons s rest ih =>
    intro h
    have hs := h s (List.mem_cons_self _ _)
    simp only [resolveFirstNonempty, hs]
    exact ih fun x hx => h x (List.mem_cons_of_mem _ hx)

/-- Helper: the resolver returns the first candidate with a positive
match count, regardless of the candidates after it. -/
theorem resolveFirstNonempty_first (env : Env) (fallback : Loc)
    (sel : String) (l2 : List String) (n : Nat)
    (hsel : env.count (Loc.css sel) = .ok (n + 1)) :
    ∀ l1 : List String, (∀ x ∈ l1, env.count (Loc.css x) = .ok 0) →
      resolveFirstNonempty env (l1 ++ sel :: l2) fallback = .ok (Loc.css sel) := by
  intro l1
  induction l1 with
  | nil =>
    intro _
    simp [resolveFirstNonempty, hsel]
  | cons s rest ih =>
    intro h
    have hs := h s (List.mem_cons_self _ _)
    simp only [List.cons_append, resolveFirstNonempty, hs]
    exact ih fun x hx => h x (List.mem_cons_of_mem _ hx)

end Airbnb

/-! ### C1 theorems -/

/-- C1 counterexample: on the single-node DOM holding only
`ghostSuggestionNode`, none of the sixteen candidate selectors of
`_top_suggestion_candidates` matches anything, yet the routine does not
return an empty (not-found) value: it returns the catch-all fallback
locator, whose match count is 1. -/
theorem c1_counterexample :
    (∀ sel ∈ step02Selectors,
        (suggestionDomEnv [ghostSuggestionNode]).count (Loc.css sel) = .ok 0) ∧
    top_suggestion_candidates (suggestionDomEnv [ghostSuggestionNode]) =
      .ok step02Fallback ∧
    (suggestionDomEnv [ghostSuggestionNode]).count step02Fallback = .ok 1 := by
  refine ⟨by decide, ?_, by decide⟩
  · decide

/-- C1 (amended): ordered first-match resolution.  (1) For every ordered
candidate list, `_top_suggestion_candidates` returns the first candidate
(in list order) with a positive match count; the candidates after it are
never consulted (the result does not mention `l2`).  (2) When every
candidate has match count zero, it returns the catch-all fallback
locator — never raising — which is the not-found value exactly when the
catch-all selector itself matches nothing.  (3) `safe_find` returns the
first element of a positively-matching selector, and `None` (not an
exception) when the selector matches nothing or the query raises. -/
theorem c1_resolver_first_viable_wins (env : Env) (fallback : Loc)
    (sel : String) (l1 l2 sels : List String) (n m : Nat) (q : String) :
    ((∀ x ∈ l1, env.count (Loc.css x) = .ok 0) →
      env.count (Loc.css sel) = .ok (n + 1) →
        Airbnb.resolveFirstNonempty env (l1 ++ sel :: l2) fallback =
          .ok (Loc.css sel)) ∧
    ((∀ x ∈ sels, env.count (Loc.css x) = .ok 0) →
        Airbnb.resolveFirstNonempty env sels fallback = .ok fallback) ∧
    (env.count (Loc.css (pySelector q)) = .ok (m + 1) →
        safe_find env q = some (Loc.firstLoc (Loc.css (pySelector q)))) ∧
    (env.count (Loc.css (pySelector q)) = .ok 0 → safe_find env q = none) ∧
    (∀ e, env.count (Loc.css (pySelector q)) = .error e → safe_find env q = none) := by
  refine ⟨fun h1 hsel => Airbnb.resolveFirstNonempty_first env fallback sel l2 n hsel l1 h1,
    fun h => Airbnb.resolveFirstNonempty_all_empty env fallback sels h, ?_, ?_, ?_⟩
  · intro h
    simp [safe_find, h]
  · intro h
    simp [safe_find, h]
  · intro e h
    simp [safe_find, h]

/-- C1 witness: a snapshot holding one visible suggestion row matched by
the second candidate resolves to that candidate, skipping the empty
first candidate and ignoring the third. -/
theorem c1_witness :
    Airbnb.resolveFirstNonempty
        { allFailEnv with
          count := fun l => if l = Loc.css "[data-testid=\x27option-0\x27]" then .ok 1 else .ok 0 }
        (["[role=\x27listbox\x27] li"] ++ "[data-testid=\x27option-0\x27]" ::
          ["[data-testid*=\x27suggestion\x27]"]) step02Fallback =
      .ok (Loc.css "[data-testid=\x27option-0\x27]") := by
  exact (c1_resolver_first_viable_wins
      { allFailEnv with
        count := fun l => if l = Loc.css "[data-testid=\x27option-0\x27]" then .ok 1 else .ok 0 }
      step02Fallback "[data-testid=\x27option-0\x27]"
      ["[role=\x27listbox\x27] li"] ["[data-testid*=\x27suggestion\x27]"] [] 0 0 "").1
    (by decide) (by decide)

/-! ### C8 theorems -/

/-- C8: when the Suggestion stage starts while the date-picker probe
already succeeds, `Step02AutoSuggestion.run` performs no page
interaction at all (the event log is unchanged — in particular zero
clicks and zero typing), hands the sink exactly the two passing results,
and returns success. -/
theorem c8_suggestion_noop_when_picker_open (env : Airbnb.Env) (q : String)
    (s : Airbnb.St) (h : Airbnb.date_picker_visible env = true) :
    Airbnb.step02_run env q s =
      (.ok true,
        ⟨s.trs ++ [(2, "Auto-suggestion List Visibility", true),
                   (2, "Auto-suggestion Selection and Click", true)],
         s.evs⟩) := by
  simp only [Airbnb.step02_run, h, if_true, bind, run_bind, run_record, run_pure,
    List.append_assoc, List.cons_append, List.nil_append]

/-- C8 witness: on a snapshot where every probe reports visible, the
stage is a recorded-success no-op. -/
theorem c8_witness :
    Airbnb.step02_run { Airbnb.allFailEnv with visible := fun _ _ => .ok true }
        "Germany" ⟨[], []⟩ =
      (.ok true,
        ⟨[(2, "Auto-suggestion List Visibility", true),
          (2, "Auto-suggestion Selection and Click", true)], []⟩) := by
  exact c8_suggestion_noop_when_picker_open
    { Airbnb.allFailEnv with visible := fun _ _ => .ok true } "Germany" ⟨[], []⟩ rfl

namespace Airbnb

/-! ## Step 05 — Results (`automation/steps/step05_results.py`)

String machinery for `_check_dates_in_url` / `_date_tokens` /
`_check_dates_in_ui`:  `urllib.parse.urlparse`, `parse_qs` and `unquote`
are embedded for the ASCII range (each `%XX` escape decodes to one
character; the URLs the code handles are ASCII). -/

/-- Hexadecimal digit value. -/
def hexVal (c : Char) : Option Nat :=
  if c.isDigit then some (c.toNat - 48)
  else if 'a' ≤ c && c ≤ 'f' then some (c.toNat - 87)
  else if 'A' ≤ c && c ≤ 'F' then some (c.toNat - 55)
  else none

/-- Percent-decoding of `urllib.parse.unquote`: a valid `%XX` escape
becomes one character, an invalid escape is kept literally. -/
def pctDecodeList : List Char → List Char
  | '%' :: a :: b :: rest =>
    (match hexVal a, hexVal b with
     | some x, some y => Char.ofNat (16 * x + y) :: pctDecodeList rest
     | _, _ => '%' :: pctDecodeList (a :: b :: rest))
  | c :: rest => c :: pctDecodeList rest
  | [] => []

/-- Embedding of `urllib.parse.unquote` (ASCII range). -/
def unquote (s : String) : String := String.mk (pctDecodeList s.toList)

/-- Decoding applied by `parse_qs` to names and values: `+` becomes a
space, then percent-decoding. -/
def unquotePlus (s : String) : String :=
  unquote (String.mk (s.toList.map fun c => if c = '+' then ' ' else c))

/-- The `query` component of `urlparse`: the part of the URL after the
first `?`, with the fragment (after the first `#`) removed first. -/
def urlQuery (url : String) : String :=
  let noFrag := (url.splitOn "#").headD ""
  match noFrag.splitOn "?" with
  | [] => ""
  | [_] => ""
  | _ :: rest => String.intercalate "?" rest

/-- The decoded name/value pairs of `parse_qs` in occurrence order:
empty chunks, chunks without `=`, and blank values are dropped
(`keep_blank_values` defaults to false). -/
def queryPairs (q : String) : List (String × String) :=
  (q.splitOn "&").filterMap fun kv =>
    if kv = "" then none
    else
      match kv.splitOn "=" with
      | [] => none
      | [_] => none
      | k :: vs =>
        let v := String.intercalate "=" vs
        if v = "" then none else some (unquotePlus k, unquotePlus v)

/-- Keys of the `parse_qs` dictionary, in first-occurrence order. -/
def qsKeys (pairs : List (String × String)) : List String :=
  (pairs.map Prod.fst).eraseDups

/-- Flattened values of the `parse_qs` dictionary
(`for v in qs.values(): values.extend(v)`): grouped by key in
first-occurrence order, per-key values in occurrence order. -/
def qsValuesGrouped (pairs : List (String × String)) : List String :=
  List.flatten ((qsKeys pairs).map fun k =>
    pairs.filterMap fun p => if p.1 = k then some p.2 else none)

/-- Direct date query keys recognized by `_check_dates_in_url`. -/
def urlDirectKeys : List String :=
  ["checkin", "check_in", "checkout", "check_out", "checkin_date", "checkout_date"]

/-- Embedding of `Step05SearchResults._check_dates_in_url`: true when a
direct date key is present in the query, or both date strings occur in
the decoded joined query values, or both occur in the decoded full
URL. -/
def check_dates_in_url (current_url : String) (checkin checkout : Option String) :
    Bool :=
  match checkin, checkout with
  | some ci, some co =>
    if ci = "" || co = "" then false
    else
      let pairs := queryPairs (urlQuery current_url)
      let values := qsValuesGrouped pairs
      let joined := (String.intercalate " " (values.map unquote)).toLower
      let keys := qsKeys pairs
      let hasKey := urlDirectKeys.any fun k => keys.contains k
      if hasKey then true
      else if strContains joined ci.toLower && strContains joined co.toLower then true
      else
        let full := (unquote current_url).toLower
        strContains full ci.toLower && strContains full co.toLower
  | _, _ => false

/-- Month abbreviations of `strftime("%b")` (C locale), 1-based. -/
def monthAbbrev (m : Nat) : String :=
  (["Jan", "Feb", "Mar", "Apr", "May", "Jun", "Jul", "Aug", "Sep", "Oct",
    "Nov", "Dec"].getD (m - 1) "")

/-- Month names of `strftime("%B")` (C locale), 1-based. -/
def monthFull (m : Nat) : String :=
  (["January", "February", "March", "April", "May", "June", "July",
    "August", "September", "October", "November", "December"].getD (m - 1) "")

/-- Gregorian month lengths, as validated by `datetime.strptime`. -/
def daysInMonth (y m : Nat) : Nat :=
  if m = 2 then
    if y % 4 = 0 && (y % 100 ≠ 0 || y % 400 = 0) then 29 else 28
  else if m = 4 || m = 6 || m = 9 || m = 11 then 30
  else 31

/-- Embedding of `datetime.strptime(iso_date, "%Y-%m-%d")`: four year
digits, one or two month and day digits, and a calendar-valid date. -/
def parseIsoDate (s : String) : Option (Nat × Nat × Nat) :=
  match s.splitOn "-" with
  | [ys, ms, ds] =>
    if ys.length = 4 && ys.toList.all Char.isDigit &&
        1 ≤ ms.length && ms.length ≤ 2 && ms.toList.all Char.isDigit &&
        1 ≤ ds.length && ds.length ≤ 2 && ds.toList.all Char.isDigit then
      let y := ys.toNat!
      let m := ms.toNat!
      let d := ds.toNat!
      if 1 ≤ m && m ≤ 12 && 1 ≤ d && d ≤ daysInMonth y m then some (y, m, d)
      else none
    else none
  | _ => none

/-- Python `s.lstrip("0")`. -/
def pyLstripZeros (s : String) : String :=
  String.mk (s.toList.dropWhile fun c => c = '0')

/-- Embedding of `Step05SearchResults._date_tokens`: on a parseable ISO
date the four display variants, otherwise the raw string. -/
def date_tokens (iso : String) : List String :=
  match parseIsoDate iso with
  | none => [iso]
  | some (_, m, d) =>
    let mm := (if m < 10 then "0" else "") ++ toString m
    let dd := (if d < 10 then "0" else "") ++ toString d
    [monthAbbrev m ++ " " ++ toString d,
     monthFull m ++ " " ++ toString d,
     toString m ++ "/" ++ toString d,
     (pyLstripZeros (mm ++ "/" ++ dd)).replace "/0" "/"]

/-- Regex word characters (`\w`). -/
def isWordChar (c : Char) : Bool := c.isAlphanum || c = '_'

/-- Maximal word-character runs of a line, in order. -/
def wordRunsAux (acc : List Char) : List Char → List (List Char)
  | [] => if acc.isEmpty then [] else [acc.reverse]
  | c :: rest =>
    if isWordChar c then wordRunsAux (c :: acc) rest
    else if acc.isEmpty then wordRunsAux [] rest
    else acc.reverse :: wordRunsAux [] rest

/-- Maximal word-character runs of a character list. -/
def wordRuns (l : List Char) : List (List Char) := wordRunsAux [] l

/-- Lower-case month abbreviations of the fallback regex. -/
def monthAbbrevsLower : List String :=
  ["jan", "feb", "mar", "apr", "may", "jun", "jul", "aug", "sep", "oct",
   "nov", "dec"]

/-- A `\b\d{1,2}\b` token: a maximal word run of one or two digits. -/
def isDayToken (w : List Char) : Bool :=
  decide (1 ≤ w.length) && decide (w.length ≤ 2) && w.all Char.isDigit

/-- A month-abbreviation word run followed (same line) by a day
token. -/
def runsHaveMonthThenDay : List (List Char) → Bool
  | [] => false
  | w :: rest =>
    (monthAbbrevsLower.contains (String.mk w) && rest.any isDayToken) ||
      runsHaveMonthThenDay rest

/-- Embedding of the fallback
`re.search(r"\b(jan|feb|...)\b.*\b\d{1,2}\b", haystack)`: `.` does not
cross newlines, so both tokens must occur on one line, month first. -/
def monthDayScan (hay : String) : Bool :=
  (hay.splitOn "\n").any fun line => runsHaveMonthThenDay (wordRuns line.toList)

end Airbnb

namespace Airbnb

/-- UI selectors probed by `_check_dates_in_ui`, in source order. -/
def step05UiSelectors : List String :=
  ["[data-testid=\x27little-search\x27]",
   "[data-testid*=\x27structured-search-input-field-split-dates-0\x27]",
   "[data-testid*=\x27structured-search-input-field-split-dates-1\x27]",
   "button[aria-label*=\x27Check in\x27]",
   "button[aria-label*=\x27Check out\x27]",
   "header"]

/-- Texts gathered by `_check_dates_in_ui` for one selector: when the
first match exists and is visible, the stripped lower-cased
`inner_text`/`text_content` and `aria-label` (each only if non-empty);
a raised error keeps the texts appended before it and skips the rest of
that selector. -/
def uiTextsForSel (env : Env) (sel : String) : List String :=
  let loc := Loc.firstLoc (Loc.css sel)
  match env.count loc with
  | .error _ => []
  | .ok n =>
    if n > 0 then
      match env.visible loc 800 with
      | .error _ => []
      | .ok false => []
      | .ok true =>
        match env.innerText loc with
        | .error _ => []
        | .ok it =>
          let baseE : Except Err String :=
            if it ≠ "" then .ok it
            else
              match env.textContent loc with
              | .error e => .error e
              | .ok tc => .ok (tc.getD "")
          match baseE with
          | .error _ => []
          | .ok base =>
            let txt := base.trim
            let firstPart := if txt ≠ "" then [txt.toLower] else []
            match env.attr loc "aria-label" with
            | .error _ => firstPart
            | .ok a =>
              let aria := (a.getD "").trim
              firstPart ++ (if aria ≠ "" then [aria.toLower] else [])
    else []

/-- All texts gathered by `_check_dates_in_ui`: the per-selector texts
followed by the first 10000 characters of the lower-cased body text
(appended unconditionally unless reading it raises). -/
def uiTexts (env : Env) : List String :=
  List.flatten (step05UiSelectors.map (uiTextsForSel env)) ++
    (match env.innerText (Loc.css "body") with
     | .error _ => []
     | .ok b => [String.mk (b.toLower.toList.take 10000)])

/-- Embedding of `Step05SearchResults._check_dates_in_ui`: at least two
of the date display tokens occur in the joined gathered texts, or the
month-then-day fallback pattern occurs. -/
def check_dates_in_ui (env : Env) (checkin checkout : Option String) : Bool :=
  match checkin, checkout with
  | some ci, some co =>
    if ci = "" || co = "" then false
    else
      let tokens := date_tokens ci ++ date_tokens co
      let texts := uiTexts env
      if texts.isEmpty then false
      else
        let haystack := String.intercalate " " texts
        let matched := (tokens.filter fun t => strContains haystack t.toLower).length
        if 2 ≤ matched then true else monthDayScan haystack
  | _, _ => false

/-! ### The two-tier listing extraction (`_scrape_listings`) -/

/-- A listing record as built by `_scrape_listings` (the Python dict
with keys `title`, `price`, `image_url`, `listing_url`). -/
structure Listing where
  title : String
  price : String
  image_url : String
  listing_url : String
  deriving DecidableEq, Repr

/-- Tier A root locator: schema-style list items. -/
def schemaItemsLoc : Loc :=
  Loc.css "xpath=//*[@itemtype=\x27http://schema.org/ListItem\x27]"

/-- Tier B root locator: heuristic card containers. -/
def cardsLoc : Loc :=
  Loc.css "xpath=//div[@data-testid=\x27card-container\x27]"

/-- Price scan shared shape: first descendant text containing `$`
(Tier B additionally requires length < 80 via `short`), scanning at
most the first ten matches; errors propagate to the per-item handler. -/
def priceScan (env : Env) (priceEls : Loc) (short : Bool) :
    List Nat → Except Err String
  | [] => .ok ""
  | j :: rest =>
    match env.textContent (Loc.nthLoc priceEls j) with
    | .error e => .error e
    | .ok tc =>
      let t := (tc.getD "").trim
      if strContains t "$" && (!short || t.length < 80) then .ok t
      else priceScan env priceEls short rest

/-- Final keep-or-discard step shared by both tiers
(`if title: listings.append(...)`). -/
def mkTitled (title price image_url listing_url : String) : Option Listing :=
  if title ≠ "" then some ⟨title, price, image_url, listing_url⟩ else none

/-- Conditional first-match attribute read shared by the tiers
(`x.first.get_attribute(a) or \x27\x27` behind an `if count > 0`
guard). -/
def attrOrEmpty (env : Env) (cond : Bool) (l : Loc) (a : String) :
    Except Err String :=
  if cond then (env.attr l a).map (fun u => u.getD "") else pure ""

/-- Tier A extraction of one schema item (`_scrape_listings`, first
loop body), inside its `try`: metadata title/url, price by `$`-scan,
first image source; a raised error propagates to the handler. -/
def schemaScrapeItemE (env : Env) (i : Nat) : Except Err (Option Listing) := do
  let item := Loc.nthLoc schemaItemsLoc i
  let t ← env.attr (Loc.firstLoc (Loc.sub item "xpath=.//meta[@itemprop=\x27name\x27]")) "content"
  let title := t.getD ""
  let urlLoc := Loc.sub item "xpath=.//meta[@itemprop=\x27url\x27]"
  let ucnt ← env.count urlLoc
  let listing_url ← attrOrEmpty env (ucnt > 0) (Loc.firstLoc urlLoc) "content"
  let priceEls := Loc.sub item "xpath=.//*[contains(text(),\x27$\x27)]"
  let pcnt ← env.count priceEls
  let price ← priceScan env priceEls false (List.range (min pcnt 10))
  let imgLoc := Loc.sub item "img"
  let icnt ← env.count imgLoc
  let image_url ← attrOrEmpty env (icnt > 0) (Loc.firstLoc imgLoc) "src"
  pure (mkTitled title price image_url listing_url)

/-- Tier A item with the per-item `except Exception: continue`: a raised
error discards the item. -/
def schemaScrapeItem (env : Env) (i : Nat) : Option Listing :=
  match schemaScrapeItemE env i with
  | .ok r => r
  | .error _ => none

/-- Accessible-label title of Tier B (`aria_label[:150]` behind the
`links.count() > 0` guard). -/
def cardAriaTitle (env : Env) (cond : Bool) (links : Loc) :
    Except Err String :=
  if cond then
    (env.attr (Loc.firstLoc links) "aria-label").map fun a =>
      let aria := a.getD ""
      if aria ≠ "" then String.mk (aria.toList.take 150) else ""
  else pure ""

/-- Card-text title fallback of Tier B
(`title = txt.split(\x27\n\x27)[0].strip()` when the accessible label
gave nothing). -/
def cardTextTitle (env : Env) (card : Loc) (title0 : String) :
    Except Err String :=
  if title0 = "" then
    (env.textContent card).map fun tc =>
      let txt := (tc.getD "").trim
      if txt ≠ "" then ((txt.splitOn "\n").headD "").trim else title0
  else pure title0

/-- Tier B extraction of one card container (`_scrape_listings`, second
loop body), inside its `try`: room link and its accessible label
(truncated to 150) as title, else first line of the card text; short
`$`-price; first image source. -/
def cardScrapeItemE (env : Env) (i : Nat) : Except Err (Option Listing) := do
  let card := Loc.nthLoc cardsLoc i
  let links := Loc.sub card "xpath=.//a[contains(@href,\x27/rooms/\x27)]"
  let lcnt ← env.count links
  let listing_url ← attrOrEmpty env (lcnt > 0) (Loc.firstLoc links) "href"
  let title0 ← cardAriaTitle env (lcnt > 0) links
  let title ← cardTextTitle env card title0
  let priceEls := Loc.sub card "xpath=.//*[contains(text(),\x27$\x27)]"
  let pcnt ← env.count priceEls
  let price ← priceScan env priceEls true (List.range (min pcnt 10))
  let imgLoc := Loc.sub card "img"
  let icnt ← env.count imgLoc
  let image_url ← attrOrEmpty env (icnt > 0) (Loc.firstLoc imgLoc) "src"
  pure (mkTitled title price image_url listing_url)

/-- Tier B item with the per-item `except Exception: continue`. -/
def cardScrapeItem (env : Env) (i : Nat) : Option Listing :=
  match cardScrapeItemE env i with
  | .ok r => r
  | .error _ => none

/-- Tier A loop: process the given item indices in order, keeping the
records of items that neither raised nor lacked a title. -/
def schemaTier (env : Env) : List Nat → List Listing
  | [] => []
  | i :: rest =>
    match schemaScrapeItem env i with
    | some l => l :: schemaTier env rest
    | none => schemaTier env rest

/-- Tier B loop, same shape over card indices. -/
def cardTier (env : Env) : List Nat → List Listing
  | [] => []
  | i :: rest =>
    match cardScrapeItem env i with
    | some l => l :: cardTier env rest
    | none => cardTier env rest

/-- Embedding of `Step05SearchResults._scrape_listings`: scroll, run
Tier A over at most 20 schema items, and only when that produced no
records run Tier B over at most 20 cards. -/
def scrape_listings (env : Env) : M (List Listing) := do
  scroll_to_bottom env
  doEvalUnit env "scrollToTop"
  let schemaCount ← liftE (env.count schemaItemsLoc)
  let listings :=
    if schemaCount ≠ 0 then schemaTier env (List.range (min schemaCount 20)) else []
  if listings.isEmpty then do
    let cardCount ← liftE (env.count cardsLoc)
    pure (cardTier env (List.range (min cardCount 20)))
  else pure listings

/-- Verification selectors of `_verify_results_page`, in source
order. -/
def step05VerifySelectors : List String :=
  ["//div[@data-testid=\x27card-container\x27]",
   "//*[@itemtype=\x27http://schema.org/ListItem\x27]",
   "//a[contains(@href,\x27/rooms/\x27)]",
   "//div[@data-testid=\x27listing-card-title\x27]",
   "//meta[@itemprop=\x27url\x27][contains(@content,\x27/rooms/\x27)]"]

/-- Pure core of `BrowserService.wait_for_element` (its only effect is
the visibility wait): clamp the timeout and wait for
`page.locator(_selector(selector)).first`. -/
def wait_for_elementE (env : Env) (selector : String) (timeout : Option Int) :
    Except Err Loc :=
  let timeoutMs := (wait_for_element_timeout_sec timeout * 1000).toNat
  let loc := Loc.firstLoc (Loc.css (pySelector selector))
  match env.waitVisible loc timeoutMs with
  | .ok _ => .ok loc
  | .error e => .error e

/-- Embedding of `Step05SearchResults._verify_results_page`: first
selector whose (clamped) visibility wait succeeds; only
`PlaywrightTimeoutError` falls through to the next selector, other
errors propagate. -/
def verify_results_page (env : Env) : List String → Except Err Bool
  | [] => .ok false
  | sel :: rest =>
    match wait_for_elementE env sel (some 10) with
    | .ok _ => .ok true
    | .error .timeout => verify_results_page env rest
    | .error .other => .error .other

/-- Embedding of `Step05SearchResults.run` (the `save_listings` bulk
hand-off of non-`StageResult` data is not recorded). -/
def step05_run (env : Env) (checkin checkout : Option String)
    (guest_count : Nat) : M (List Listing) := do
  let page_loaded ← liftE (verify_results_page env step05VerifySelectors)
  let current_url := env.url
  take_screenshot "step05_results_page"
  record 5 "Search Results Page Load Verification" page_loaded
  let dates_in_ui := check_dates_in_ui env checkin checkout
  let dates_in_url := check_dates_in_url current_url checkin checkout
  let dates_preserved := dates_in_url || dates_in_ui
  record 5 "Selected Dates in URL Validation" dates_preserved
  let guests_in_url := strContains current_url "adults" ||
    strContains current_url "guests" ||
    strContains current_url ("adults=" ++ toString guest_count)
  record 5 "Selected Guest Count in URL Validation" guests_in_url
  record 5 "Selected Dates in Page UI Confirmation" dates_in_ui
  let listings ← scrape_listings env
  record 5 "Listing Data Scraping" (listings.length > 0)
  pure listings

end Airbnb

namespace Airbnb

@[simp] theorem run_liftE (x : Except Err α) (s : St) : liftE x s = (x, s) := rfl

/-- Helper: each tier loop is the order-preserving `filterMap` of its
per-item extractor over the item indices. -/
theorem schemaTier_eq_filterMap (env : Env) :
    ∀ l : List Nat, schemaTier env l = l.filterMap (schemaScrapeItem env) := by
  intro l
  induction l with
  | nil => rfl
  | cons i rest ih =>
    simp only [schemaTier, List.filterMap_cons]
    cases schemaScrapeItem env i <;> simp [ih]

/-- Helper: Tier B loop as a `filterMap`. -/
theorem cardTier_eq_filterMap (env : Env) :
    ∀ l : List Nat, cardTier env l = l.filterMap (cardScrapeItem env) := by
  intro l
  induction l with
  | nil => rfl
  | cons i rest ih =>
    simp only [cardTier, List.filterMap_cons]
    cases cardScrapeItem env i <;> simp [ih]

/-- Helper: successful `Except` bind inversion. -/
theorem exceptBind_ok {ε α β : Type} {x : Except ε α} {f : α → Except ε β} {b : β}
    (h : x >>= f = .ok b) : ∃ a, x = .ok a ∧ f a = .ok b := by
  cases x with
  | error e => simp [Bind.bind, Except.bind] at h
  | ok a => exact ⟨a, rfl, by simpa [Bind.bind, Except.bind] using h⟩

/-- Helper: a record kept by `mkTitled` has a non-empty title. -/
theorem mkTitled_some {t p im u : String} {r : Listing}
    (h : mkTitled t p im u = some r) : r.title ≠ "" := by
  unfold mkTitled at h
  split at h
  · cases h; assumption
  · cases h

/-- Helper: a kept Tier A record has a non-empty title. -/
theorem schemaScrapeItem_title_ne (env : Env) (i : Nat) (r : Listing)
    (h : schemaScrapeItem env i = some r) : r.title ≠ "" := by
  unfold schemaScrapeItem at h
  rcases he : schemaScrapeItemE env i with e | o
  · rw [he] at h; cases h
  · rw [he] at h
    unfold schemaScrapeItemE at he
    obtain ⟨_, _, he⟩ := exceptBind_ok he
    obtain ⟨_, _, he⟩ := exceptBind_ok he
    obtain ⟨_, _, he⟩ := exceptBind_ok he
    obtain ⟨_, _, he⟩ := exceptBind_ok he
    obtain ⟨_, _, he⟩ := exceptBind_ok he
    obtain ⟨_, _, he⟩ := exceptBind_ok he
    obtain ⟨_, _, he⟩ := exceptBind_ok he
    cases he
    exact mkTitled_some h

/-- Helper: a kept Tier B record has a non-empty title. -/
theorem cardScrapeItem_title_ne (env : Env) (i : Nat) (r : Listing)
    (h : cardScrapeItem env i = some r) : r.title ≠ "" := by
  unfold cardScrapeItem at h
  rcases he : cardScrapeItemE env i with e | o
  · rw [he] at h; cases h
  · rw [he] at h
    unfold cardScrapeItemE at he
    obtain ⟨_, _, he⟩ := exceptBind_ok he
    obtain ⟨_, _, he⟩ := exceptBind_ok he
    obtain ⟨_, _, he⟩ := exceptBind_ok he
    obtain ⟨_, _, he⟩ := exceptBind_ok he
    obtain ⟨_, _, he⟩ := exceptBind_ok he
    obtain ⟨_, _, he⟩ := exceptBind_ok he
    obtain ⟨_, _, he⟩ := exceptBind_ok he
    obtain ⟨_, _, he⟩ := exceptBind_ok he
    cases he
    exact mkTitled_some h

/-- Helper: evaluation of `_scrape_listings` when the scrolls succeed
and the schema count is known. -/
theorem scrape_listings_eval (env : Env) (s : St) (n : Nat)
    (hev : ∀ t, env.evalUnit t = .ok ())
    (hn : env.count schemaItemsLoc = .ok n) :
    scrape_listings env s =
      (if (schemaTier env (List.range (min n 20))).isEmpty then
        match env.count cardsLoc with
        | .ok m =>
          (.ok (cardTier env (List.range (min m 20))),
            ⟨s.trs, s.evs ++ [.evalJs "scrollToBottom", .evalJs "scrollToTop"]⟩)
        | .error e =>
          (.error e, ⟨s.trs, s.evs ++ [.evalJs "scrollToBottom", .evalJs "scrollToTop"]⟩)
      else
        (.ok (schemaTier env (List.range (min n 20))),
          ⟨s.trs, s.evs ++ [.evalJs "scrollToBottom", .evalJs "scrollToTop"]⟩)) := by
  have hzero : (if n ≠ 0 then schemaTier env (List.range (min n 20)) else []) =
      schemaTier env (List.range (min n 20)) := by
    rcases n with _ | n
    · simp [schemaTier]
    · simp
  simp only [scrape_listings, scroll_to_bottom, doEvalUnit, bind, run_bind,
    run_liftE, hev, run_emit, run_pure, hn, hzero]
  split
  · rcases hm : env.count cardsLoc with e | m <;>
      simp [hm, run_liftE, run_pure, List.append_assoc]
  · simp [List.append_assoc]

/-- A computation that never hands a `StageResult` to the sink. -/
def TrsPreserve (x : M α) : Prop := ∀ s, (x s).2.trs = s.trs

theorem trsPreserve_pure (a : α) : TrsPreserve (pure a : M α) := fun _ => rfl

theorem trsPreserve_liftE (x : Except Err α) : TrsPreserve (liftE x) := fun _ => rfl

theorem trsPreserve_emit (ev : Ev) : TrsPreserve (emit ev) := fun _ => rfl

theorem trsPreserve_bind {x : M α} {f : α → M β} (hx : TrsPreserve x)
    (hf : ∀ a, TrsPreserve (f a)) : TrsPreserve (x >>= f) := by
  intro s
  have hxs := hx s
  rcases hres : x s with ⟨r, s'⟩
  rw [hres] at hxs
  cases r with
  | error e =>
    simp only [bind, run_bind, hres]
    exact hxs
  | ok a =>
    simp only [bind, run_bind, hres]
    rw [hf a s', hxs]

/-- Helper: `_scrape_listings` never hands anything to the result
sink. -/
theorem scrape_listings_trs (env : Env) : TrsPreserve (scrape_listings env) := by
  unfold scrape_listings scroll_to_bottom doEvalUnit
  refine trsPreserve_bind (trsPreserve_bind (trsPreserve_liftE _)
    fun _ => trsPreserve_emit _) fun _ => ?_
  refine trsPreserve_bind (trsPreserve_bind (trsPreserve_liftE _)
    fun _ => trsPreserve_emit _) fun _ => ?_
  refine trsPreserve_bind (trsPreserve_liftE _) fun n => ?_
  dsimp only
  repeat' split
  all_goals
    first
      | exact trsPreserve_bind (trsPreserve_liftE _) fun m => trsPreserve_pure _
      | exact trsPreserve_pure _

/-- Helper: `scrape_listings_trs` as a plain equation. -/
theorem scrape_listings_trs_eq (env : Env) (S : St) :
    (scrape_listings env S).2.trs = S.trs := scrape_listings_trs env S

end Airbnb

/-! ### C6 theorems -/

/-- C6: the listing extraction is strictly two-tier with the first
non-empty tier winning for the whole page.  When Tier A (schema items)
yields at least one record, the scrape returns exactly Tier A's output
(no Tier B value occurs in the result); when Tier A yields zero records,
the scrape returns exactly Tier B's output over the card containers —
the tiers are never mixed. -/
theorem c6_two_tier_first_nonempty_wins (env : Airbnb.Env) (s : Airbnb.St)
    (n m : Nat) (hev : ∀ t, env.evalUnit t = .ok ())
    (hn : env.count Airbnb.schemaItemsLoc = .ok n)
    (hm : env.count Airbnb.cardsLoc = .ok m) :
    (Airbnb.schemaTier env (List.range (min n 20)) ≠ [] →
      Airbnb.scrape_listings env s =
        (.ok (Airbnb.schemaTier env (List.range (min n 20))),
          ⟨s.trs, s.evs ++ [.evalJs "scrollToBottom", .evalJs "scrollToTop"]⟩)) ∧
    (Airbnb.schemaTier env (List.range (min n 20)) = [] →
      Airbnb.scrape_listings env s =
        (.ok (Airbnb.cardTier env (List.range (min m 20))),
          ⟨s.trs, s.evs ++ [.evalJs "scrollToBottom", .evalJs "scrollToTop"]⟩)) := by
  rw [Airbnb.scrape_listings_eval env s n hev hn]
  constructor
  · intro hne
    rw [if_neg (by simpa using hne)]
  · intro hempty
    rw [if_pos (by simpa using hempty), hm]

/-- Concrete Scenario-D snapshot: no schema markers, one generic card
with a room link labelled "Charming loft". -/
def scenarioDEnv : Airbnb.Env :=
  { Airbnb.allFailEnv with
    count := fun l =>
      if l = Airbnb.cardsLoc then .ok 1
      else if l = Airbnb.Loc.sub (Airbnb.Loc.nthLoc Airbnb.cardsLoc 0)
          "xpath=.//a[contains(@href,\x27/rooms/\x27)]" then .ok 1
      else .ok 0,
    attr := fun l a =>
      if l = Airbnb.Loc.firstLoc (Airbnb.Loc.sub (Airbnb.Loc.nthLoc Airbnb.cardsLoc 0)
            "xpath=.//a[contains(@href,\x27/rooms/\x27)]") && a = "aria-label" then
        .ok (some "Charming loft")
      else if l = Airbnb.Loc.firstLoc (Airbnb.Loc.sub (Airbnb.Loc.nthLoc Airbnb.cardsLoc 0)
            "xpath=.//a[contains(@href,\x27/rooms/\x27)]") && a = "href" then
        .ok (some "/rooms/123")
      else .ok none }

/-- C6 witness: Scenario D — Tier A yields zero items, Tier B yields
one, and the final listings value is exactly Tier B's output. -/
theorem c6_witness :
    Airbnb.scrape_listings scenarioDEnv ⟨[], []⟩ =
      (.ok (Airbnb.cardTier scenarioDEnv (List.range (min 1 20))),
        ⟨[], [.evalJs "scrollToBottom", .evalJs "scrollToTop"]⟩) ∧
    Airbnb.cardTier scenarioDEnv (List.range (min 1 20)) =
      [⟨"Charming loft", "", "", "/rooms/123"⟩] := by
  refine ⟨(c6_two_tier_first_nonempty_wins scenarioDEnv ⟨[], []⟩ 0 1
    (fun _ => rfl) (by decide) (by decide)).2 (by decide), by decide⟩

/-! ### C7 theorems -/

/-- Concrete results snapshot for C7: two schema items in document
order, the first lacking a title (its name metadata is absent), the
second titled "Cozy Flat". -/
def c7Env : Airbnb.Env :=
  { Airbnb.allFailEnv with
    count := fun l => if l = Airbnb.schemaItemsLoc then .ok 2 else .ok 0,
    attr := fun l a =>
      if l = Airbnb.Loc.firstLoc (Airbnb.Loc.sub (Airbnb.Loc.nthLoc Airbnb.schemaItemsLoc 1)
            "xpath=.//meta[@itemprop=\x27name\x27]") && a = "content" then
        .ok (some "Cozy Flat")
      else .ok none }

/-- C7 counterexample: the listing records built by `_scrape_listings`
carry no position field at all (the record has exactly the keys
`title`, `price`, `image_url`, `listing_url`), and the implicit
position — the index in the returned list — is not the 0-based
enumeration order within the winning tier: on `c7Env` the tier discards
its item 0 (empty title), so the record produced from tier item 1 ends
up at list index 0. -/
theorem c7_counterexample :
    Airbnb.schemaScrapeItem c7Env 0 = none ∧
    Airbnb.schemaScrapeItem c7Env 1 = some ⟨"Cozy Flat", "", "", ""⟩ ∧
    Airbnb.scrape_listings c7Env ⟨[], []⟩ =
      (.ok [⟨"Cozy Flat", "", "", ""⟩],
        ⟨[], [.evalJs "scrollToBottom", .evalJs "scrollToTop"]⟩) ∧
    (1 : Nat) ≠ 0 := by
  refine ⟨by decide, by decide, by decide, by decide⟩

/-- C7 (amended): the records built by the Results scrape carry no
explicit position field; the implicit position of a record — its
0-based index in the returned `listings` — is its rank among the *kept*
records of the winning tier.  The returned list is exactly the
order-preserving `filterMap` of the per-item extractor over the tier's
item enumeration (at most the first 20 items), so positions are unique
and monotonic with DOM order at scrape time; items lacking a non-empty
title are discarded (every returned record has a non-empty title), and
at most 20 items are processed per tier. -/
theorem c7_positions_kept_order (env : Airbnb.Env) (s : Airbnb.St) (n : Nat)
    (hev : ∀ t, env.evalUnit t = .ok ())
    (hn : env.count Airbnb.schemaItemsLoc = .ok n)
    (hne : Airbnb.schemaTier env (List.range (min n 20)) ≠ []) :
    Airbnb.scrape_listings env s =
      (.ok ((List.range (min n 20)).filterMap (Airbnb.schemaScrapeItem env)),
        ⟨s.trs, s.evs ++ [.evalJs "scrollToBottom", .evalJs "scrollToTop"]⟩) ∧
    ((List.range (min n 20)).filterMap (Airbnb.schemaScrapeItem env)).length ≤ 20 ∧
    (∀ r ∈ (List.range (min n 20)).filterMap (Airbnb.schemaScrapeItem env),
      r.title ≠ "") ∧
    (∀ i r, Airbnb.cardScrapeItem env i = some r → r.title ≠ "") := by
  refine ⟨?_, ?_, ?_, fun i r h => Airbnb.cardScrapeItem_title_ne env i r h⟩
  · rw [Airbnb.scrape_listings_eval env s n hev hn,
      if_neg (by simpa using hne), Airbnb.schemaTier_eq_filterMap]
  · calc ((List.range (min n 20)).filterMap (Airbnb.schemaScrapeItem env)).length
        ≤ (List.range (min n 20)).length := List.length_filterMap_le _ _
      _ = min n 20 := List.length_range _
      _ ≤ 20 := min_le_right _ _
  · intro r hr
    rcases List.mem_filterMap.mp hr with ⟨i, _, hi⟩
    exact Airbnb.schemaScrapeItem_title_ne env i r hi

/-- C7 witness: on the two-item snapshot the scrape equals the
`filterMap` of the tier extractor, its single record is titled, and the
20-item bound holds. -/
theorem c7_witness :
    Airbnb.scrape_listings c7Env ⟨[], []⟩ =
      (.ok ((List.range (min 2 20)).filterMap (Airbnb.schemaScrapeItem c7Env)),
        ⟨[], [.evalJs "scrollToBottom", .evalJs "scrollToTop"]⟩) := by
  exact (c7_positions_kept_order c7Env ⟨[], []⟩ 2 (fun _ => rfl) (by decide)
    (by decide)).1

/-- Helper: the tail of `step05_run` after its fourth record (the
scrape, the fifth record, and the return) only appends to the sink
log. -/
theorem step05_tail_exists (env : Airbnb.Env) (S : Airbnb.St) :
    ∃ rest : List (Nat × String × Bool),
      ((Airbnb.scrape_listings env >>= fun listings =>
        Airbnb.record 5 "Listing Data Scraping" (listings.length > 0) >>= fun _ =>
        pure listings) S).2.trs = S.trs ++ rest := by
  rcases h : Airbnb.scrape_listings env S with ⟨r, s'⟩
  have h3 := Airbnb.scrape_listings_trs_eq env S
  rw [h] at h3
  have h4 : s'.trs = S.trs := h3
  cases r with
  | ok l =>
    refine ⟨[(5, "Listing Data Scraping", decide (l.length > 0))], ?_⟩
    simp [bind, run_bind, h, Airbnb.run_record, run_pure, h4]
  | error e =>
    refine ⟨[], ?_⟩
    simp [bind, run_bind, h, h4]

/-! ### C9 theorem -/

/-- C9: the date-persistence verdict recorded by the Results stage is
exactly the disjunction of the URL check and the UI check: the entry
"Selected Dates in URL Validation" handed to the sink carries
`check_dates_in_url OR check_dates_in_ui`, so either signal alone
suffices and the verdict is false precisely when both checks fail. -/
theorem c9_date_persistence_or (env : Airbnb.Env) (ci co : Option String)
    (g : Nat) (s : Airbnb.St) (b : Bool)
    (hv : Airbnb.verify_results_page env Airbnb.step05VerifySelectors = .ok b) :
    (∃ rest : List (Nat × String × Bool),
      ((Airbnb.step05_run env ci co g) s).2.trs =
        s.trs ++
          [(5, "Search Results Page Load Verification", b),
           (5, "Selected Dates in URL Validation",
             Airbnb.check_dates_in_url env.url ci co ||
               Airbnb.check_dates_in_ui env ci co),
           (5, "Selected Guest Count in URL Validation",
             Airbnb.strContains env.url "adults" ||
               Airbnb.strContains env.url "guests" ||
               Airbnb.strContains env.url ("adults=" ++ toString g)),
           (5, "Selected Dates in Page UI Confirmation",
             Airbnb.check_dates_in_ui env ci co)] ++ rest) ∧
    ((Airbnb.check_dates_in_url env.url ci co ||
        Airbnb.check_dates_in_ui env ci co) = false ↔
      (Airbnb.check_dates_in_url env.url ci co = false ∧
        Airbnb.check_dates_in_ui env ci co = false)) := by
  constructor
  · simp only [Airbnb.step05_run, bind, run_bind, Airbnb.run_liftE, hv,
      Airbnb.take_screenshot, run_emit, run_record, run_pure,
      List.append_assoc, List.singleton_append, List.cons_append,
      List.nil_append]
    obtain ⟨rest, hrest⟩ := step05_tail_exists env
      (⟨s.trs ++
          [(5, "Search Results Page Load Verification", b),
           (5, "Selected Dates in URL Validation",
             Airbnb.check_dates_in_url env.url ci co ||
               Airbnb.check_dates_in_ui env ci co),
           (5, "Selected Guest Count in URL Validation",
             Airbnb.strContains env.url "adults" ||
               Airbnb.strContains env.url "guests" ||
               Airbnb.strContains env.url ("adults=" ++ toString g)),
           (5, "Selected Dates in Page UI Confirmation",
             Airbnb.check_dates_in_ui env ci co)],
        s.evs ++ [.screenshot "step05_results_page"]⟩ : Airbnb.St)
    simp only [bind, run_bind, Airbnb.run_record, run_pure] at hrest
    refine ⟨rest, ?_⟩
    rw [hrest]
    simp
  · simp


/-- Results snapshot for the C9 witness: the visibility waits succeed
(the card-container wait resolves), everything else fails as in
`allFailEnv`. -/
def c9WitEnv : Airbnb.Env :=
  { Airbnb.allFailEnv with waitVisible := fun _ _ => .ok () }

/-- C9 witness: instantiating the disjunction theorem on a concrete
snapshot and concrete chosen dates. -/
theorem c9_witness :
    ∃ rest : List (Nat × String × Bool),
      ((Airbnb.step05_run c9WitEnv (some "2026-06-15") (some "2026-06-18") 5)
          ⟨[], []⟩).2.trs =
        [] ++
          [(5, "Search Results Page Load Verification", true),
           (5, "Selected Dates in URL Validation",
             Airbnb.check_dates_in_url c9WitEnv.url (some "2026-06-15") (some "2026-06-18") ||
               Airbnb.check_dates_in_ui c9WitEnv (some "2026-06-15") (some "2026-06-18")),
           (5, "Selected Guest Count in URL Validation",
             Airbnb.strContains c9WitEnv.url "adults" ||
               Airbnb.strContains c9WitEnv.url "guests" ||
               Airbnb.strContains c9WitEnv.url ("adults=" ++ toString 5)),
           (5, "Selected Dates in Page UI Confirmation",
             Airbnb.check_dates_in_ui c9WitEnv (some "2026-06-15") (some "2026-06-18"))] ++
          rest :=
  (c9_date_persistence_or c9WitEnv (some "2026-06-15") (some "2026-06-18") 5
    ⟨[], []⟩ true rfl).1

namespace Airbnb

/-! ## Step 04 — Guest picker (`automation/steps/step04_guestpicker.py`) -/

/-- Probe selectors of `_guest_controls_visible`, in source order. -/
def guestControlProbes : List String :=
  ["button[data-testid=\x27stepper-adults-increase-button\x27]",
   "button[data-testid=\x27stepper-children-increase-button\x27]",
   "button[data-testid=\x27stepper-infants-increase-button\x27]",
   "button[aria-label*=\x27Add adult\x27]"]

/-- Embedding of `Step04GuestPicker._guest_controls_visible`: each probe
check individually wrapped, errors fall through. -/
def guest_controls_visible_scan (env : Env) : List String → Bool
  | [] => false
  | sel :: rest =>
    match env.visible (Loc.firstLoc (Loc.css sel)) 1000 with
    | .ok true => true
    | _ => guest_controls_visible_scan env rest

/-- Embedding of `_guest_controls_visible`. -/
def guest_controls_visible (env : Env) : Bool :=
  guest_controls_visible_scan env guestControlProbes

/-- Opener candidates of `_open_guest_picker`, in source order. -/
def guestOpeners : List Loc :=
  [Loc.role "button" "Who Add guests",
   Loc.role "button" "Who",
   Loc.role "button" "Add guests",
   Loc.textSel "Who" true,
   Loc.firstLoc (Loc.css "[data-testid*=\x27structured-search-input-field-guests\x27]")]

/-- Opener loop of `_open_guest_picker`: click a visible candidate and
succeed once the stepper controls are visible; finish with a last
controls check. -/
def open_guest_picker_loop (env : Env) : List Loc → M Bool
  | [] => pure (guest_controls_visible env)
  | c :: rest => do
    let r ← attempt (do
        let vis ← liftE (env.visible c 2000)
        if vis then do
          doClick env c
          pure (guest_controls_visible env)
        else pure false) false
    if r then pure true else open_guest_picker_loop env rest

/-- Embedding of `Step04GuestPicker._open_guest_picker`. -/
def open_guest_picker (env : Env) : M Bool :=
  open_guest_picker_loop env guestOpeners

/-- Python short-circuit `btn.is_visible(...) and btn.is_enabled()`:
the enabled check runs only when the visibility check returned true. -/
def enabledIfVisible (env : Env) (vis : Bool) (btn : Loc) : M Bool :=
  if vis then liftE (env.enabled btn) else pure false

/-- Inner `for _ in range(count)` loop of
`_apply_codegen_guest_clicks` for one stepper test id: click while the
button stays visible and enabled; a disabled button or an error breaks
the loop. -/
def codegenClicks (env : Env) (tid : String) : Nat → M Nat
  | 0 => pure 0
  | k + 1 => do
    let r ← attempt (do
        let btn := Loc.firstLoc (Loc.testId tid)
        let vis ← liftE (env.visible btn 1000)
        let en ← enabledIfVisible env vis btn
        if vis && en then do
          doClick env btn
          pure true
        else pure false) false
    if r then do
      let rest ← codegenClicks env tid k
      pure (rest + 1)
    else pure 0

/-- Embedding of `Step04GuestPicker._apply_codegen_guest_clicks`:
adults ×3, children ×2, infants ×1, pets ×1 with explicit test ids. -/
def apply_codegen_guest_clicks (env : Env) : M Nat := do
  let a ← codegenClicks env "stepper-adults-increase-button" 3
  let c ← codegenClicks env "stepper-children-increase-button" 2
  let i ← codegenClicks env "stepper-infants-increase-button" 1
  let p ← codegenClicks env "stepper-pets-increase-button" 1
  pure (a + c + i + p)

/-- One pass over a selector list in `_click_increment`: click the first
visible and enabled candidate; errors fall through to the next
selector. -/
def clickIncrementOnce (env : Env) : List String → M Bool
  | [] => pure false
  | sel :: rest => do
    let r ← attempt (do
        let btn := Loc.firstLoc (Loc.css sel)
        let vis ← liftE (env.visible btn 1000)
        let en ← enabledIfVisible env vis btn
        if vis && en then do
          doClick env btn
          pure true
        else pure false) false
    if r then pure true else clickIncrementOnce env rest

/-- Embedding of `Step04GuestPicker._click_increment`: perform up to
`count` increments, stopping at the first round in which no selector
yields a click. -/
def click_increment (env : Env) (selectors : List String) : Nat → M Nat
  | 0 => pure 0
  | k + 1 => do
    let clicked ← clickIncrementOnce env selectors
    if clicked then do
      let rest ← click_increment env selectors k
      pure (rest + 1)
    else pure 0

/-- Adults selector list of `_add_adults_children_randomly`. -/
def adultsSelectors : List String :=
  ["button[data-testid=\x27stepper-adults-increase-button\x27]",
   "button:has-text(\x27Adults\x27) >> xpath=ancestor::*[1]//button[contains(@aria-label,\x27increase\x27)]",
   "button[aria-label*=\x27Add adult\x27]"]

/-- Hard-guard adults selector list (the retry when no adult was
added). -/
def adultsGuardSelectors : List String :=
  ["button[data-testid=\x27stepper-adults-increase-button\x27]",
   "button[aria-label*=\x27Add adult\x27]"]

/-- Children selector list of `_add_adults_children_randomly`. -/
def childrenSelectors : List String :=
  ["button[data-testid=\x27stepper-children-increase-button\x27]",
   "button[aria-label*=\x27Add children\x27]",
   "button[aria-label*=\x27children\x27][aria-label*=\x27increase\x27]"]

/-- Embedding of `Step04GuestPicker._add_adults_children_randomly`.
`adults`/`children` are the values of `random.randint(1, 3)` and
`random.randint(0, 2)`.  The codegen fast path wins whenever it added
anything; otherwise adults are attempted, re-attempted once (after
re-opening the picker) if none were added, then children. -/
def add_adults_children_randomly (env : Env) (adults children : Nat) :
    M Nat := do
  let deterministic ← apply_codegen_guest_clicks env
  if deterministic > 0 then pure deterministic
  else do
    let a1 ← click_increment env adultsSelectors adults
    let a2 ←
      if a1 = 0 then do
        let _ ← open_guest_picker env
        click_increment env adultsGuardSelectors 1
      else pure 0
    let c ← click_increment env childrenSelectors children
    pure (a1 + a2 + c)

/-- Leading maximal digit run of a string
(`re.findall(r"\d+", text)[0]`). -/
def firstDigitRun : List Char → Option (List Char)
  | [] => none
  | c :: rest =>
    if c.isDigit then some (c :: rest.takeWhile Char.isDigit)
    else firstDigitRun rest

/-- First integer occurring in a text, if any. -/
def firstNumber (t : String) : Option Nat :=
  (firstDigitRun t.toList).map fun ds => (String.mk ds).toNat!

/-- Display selectors of `_get_displayed_count`, in source order. -/
def guestDisplaySelectors : List String :=
  ["[data-testid*=\x27structured-search-input-field-guests\x27]",
   "button:has-text(\x27guest\x27)",
   "*:has-text(\x27guest\x27)"]

/-- Embedding of `Step04GuestPicker._get_displayed_count`: the first
number found in a matching element's text, else the attempted-increment
total. -/
def get_displayed_count_scan (env : Env) (total_selected : Nat) :
    List String → Nat
  | [] => total_selected
  | sel :: rest =>
    match safe_find env sel with
    | none => get_displayed_count_scan env total_selected rest
    | some el =>
      match env.textContent el with
      | .error _ => get_displayed_count_scan env total_selected rest
      | .ok tc =>
        match firstNumber ((tc.getD "").trim) with
        | some n => n
        | none => get_displayed_count_scan env total_selected rest

/-- Embedding of `_get_displayed_count`. -/
def get_displayed_count (env : Env) (total_selected : Nat) : Nat :=
  get_displayed_count_scan env total_selected guestDisplaySelectors

/-- Search-button candidates of `_click_search`, in source order. -/
def searchCandidates : List Loc :=
  [Loc.role "button" "Search",
   Loc.firstLoc (Loc.css "button[data-testid=\x27structured-search-input-search-button\x27]"),
   Loc.firstLoc (Loc.css "button[type=\x27submit\x27]")]

/-- Embedding of `Step04GuestPicker._click_search`. -/
def click_search_loop (env : Env) : List Loc → M Bool
  | [] => pure false
  | c :: rest => do
    let r ← attempt (do
        let vis ← liftE (env.visible c 1500)
        let en ← enabledIfVisible env vis c
        if vis && en then do
          doClick env c
          pure true
        else pure false) false
    if r then pure true else click_search_loop env rest

/-- Embedding of `Step04GuestPicker.run`. -/
def step04_run (env : Env) (adults children : Nat) : M Nat := do
  let opened ← open_guest_picker env
  take_screenshot "step04_guest_picker_open"
  record 4 "Guest Picker Open Verification" opened
  if !opened then pure 0
  else do
    let _opened2 ←
      if !(guest_controls_visible env) then open_guest_picker env
      else pure opened
    let total ← add_adults_children_randomly env adults children
    take_screenshot "step04_guests_selected"
    let displayed := get_displayed_count env total
    record 4 "Guest Count Display Verification" (displayed > 0 || total > 0)
    let searched ← click_search_loop env searchCandidates
    take_screenshot "step04_search_clicked"
    record 4 "Search Button Click After Guest Selection" searched
    pure total

/-- Number of successful clicks on any adult-increment affordance in an
event log (both the codegen test-id target and the selector-list
targets). -/
def adultClickCount (evs : List Ev) : Nat :=
  (evs.filter fun e =>
    e = Ev.click (Loc.firstLoc (Loc.testId "stepper-adults-increase-button")) ||
    e = Ev.click (Loc.firstLoc (Loc.css "button[data-testid=\x27stepper-adults-increase-button\x27]")) ||
    e = Ev.click (Loc.firstLoc (Loc.css "button:has-text(\x27Adults\x27) >> xpath=ancestor::*[1]//button[contains(@aria-label,\x27increase\x27)]")) ||
    e = Ev.click (Loc.firstLoc (Loc.css "button[aria-label*=\x27Add adult\x27]"))).length

end Airbnb

namespace Airbnb

/-- A computation that records nothing and only appends interaction
events, whatever its outcome. -/
def NoTrsEvsAppend (x : M α) : Prop :=
  ∀ s, (x s).2.trs = s.trs ∧ ∃ rest, (x s).2.evs = s.evs ++ rest

theorem noTEA_pure (a : α) : NoTrsEvsAppend (pure a : M α) :=
  fun _ => ⟨rfl, [], by simp⟩

theorem noTEA_liftE (x : Except Err α) : NoTrsEvsAppend (liftE x) :=
  fun _ => ⟨rfl, [], by simp⟩

theorem noTEA_emit (ev : Ev) : NoTrsEvsAppend (emit ev) :=
  fun _ => ⟨rfl, [ev], rfl⟩

theorem noTEA_bind {x : M α} {f : α → M β} (hx : NoTrsEvsAppend x)
    (hf : ∀ a, NoTrsEvsAppend (f a)) : NoTrsEvsAppend (x >>= f) := by
  intro s
  obtain ⟨hxt, r1, hxe⟩ := hx s
  rcases hres : x s with ⟨r, s'⟩
  rw [hres] at hxt hxe
  cases r with
  | error e =>
    refine ⟨?_, r1, ?_⟩
    · simp only [bind, run_bind, hres]
      exact hxt
    · simp only [bind, run_bind, hres]
      exact hxe
  | ok a =>
    obtain ⟨hft, r2, hfe⟩ := hf a s'
    refine ⟨by simp only [bind, run_bind, hres]; rw [hft, hxt], r1 ++ r2, ?_⟩
    simp only [bind, run_bind, hres]
    rw [hfe, hxe, List.append_assoc]

theorem noTEA_ite {c : Prop} [Decidable c] {x y : M α}
    (hx : NoTrsEvsAppend x) (hy : NoTrsEvsAppend y) :
    NoTrsEvsAppend (if c then x else y) := by
  split
  · exact hx
  · exact hy

theorem noTEA_doClick (env : Env) (l : Loc) : NoTrsEvsAppend (doClick env l) := by
  unfold doClick
  exact noTEA_bind (noTEA_liftE _) fun _ => noTEA_emit _

/-- `attempt` of a record-free append-only body always succeeds and
keeps the state append-only. -/
theorem attempt_okAppend {x : M α} (hx : NoTrsEvsAppend x) (d : α) :
    ∀ s, ∃ a rest, attempt x d s = (.ok a, ⟨s.trs, s.evs ++ rest⟩) := by
  intro s
  obtain ⟨hxt, r1, hxe⟩ := hx s
  rcases hres : x s with ⟨r, s'⟩
  rw [hres] at hxt hxe
  have hs' : s' = ⟨s.trs, s.evs ++ r1⟩ := by
    cases s'
    simp only at hxt hxe
    rw [hxt, hxe]
  cases r with
  | error e => exact ⟨d, r1, by simp [attempt, hres, hs']⟩
  | ok a => exact ⟨a, r1, by simp [attempt, hres, hs']⟩

/-- A computation that always succeeds, records nothing and only
appends interaction events. -/
def OkAppend (x : M α) : Prop :=
  ∀ s, ∃ a rest, x s = (.ok a, ⟨s.trs, s.evs ++ rest⟩)

theorem okAppend_pure (a : α) : OkAppend (pure a : M α) := by
  intro s
  refine ⟨a, [], ?_⟩
  cases s
  simp

theorem okAppend_bind {x : M α} {f : α → M β} (hx : OkAppend x)
    (hf : ∀ a, OkAppend (f a)) : OkAppend (x >>= f) := by
  intro s
  obtain ⟨a, r1, hxs⟩ := hx s
  obtain ⟨b, r2, hfs⟩ := hf a ⟨s.trs, s.evs ++ r1⟩
  exact ⟨b, r1 ++ r2, by simp [bind, run_bind, hxs, hfs, List.append_assoc]⟩

theorem okAppend_ite {c : Prop} [Decidable c] {x y : M α}
    (hx : OkAppend x) (hy : OkAppend y) : OkAppend (if c then x else y) := by
  split
  · exact hx
  · exact hy

/-- The body of one codegen click attempt is record-free and
append-only. -/
theorem noTEA_enabledIfVisible (env : Env) (vis : Bool) (btn : Loc) :
    NoTrsEvsAppend (enabledIfVisible env vis btn) := by
  unfold enabledIfVisible
  exact noTEA_ite (noTEA_liftE _) (noTEA_pure _)

theorem codegenBody_noTEA (env : Env) (tid : String) :
    NoTrsEvsAppend (do
      let btn := Loc.firstLoc (Loc.testId tid)
      let vis ← liftE (env.visible btn 1000)
      let en ← enabledIfVisible env vis btn
      if vis && en then do
        doClick env btn
        pure true
      else pure false) := by
  refine noTEA_bind (noTEA_liftE _) fun vis => ?_
  refine noTEA_bind (noTEA_enabledIfVisible env vis _) fun en => ?_
  exact noTEA_ite (noTEA_bind (noTEA_doClick env _) fun _ => noTEA_pure _)
    (noTEA_pure _)

/-- `codegenClicks` always succeeds, records nothing, and only appends
click events. -/
theorem codegenClicks_okAppend (env : Env) (tid : String) :
    ∀ k, OkAppend (codegenClicks env tid k) := by
  intro k
  induction k with
  | zero => exact okAppend_pure 0
  | succ k ih =>
    intro s
    obtain ⟨r, rest, hr⟩ := attempt_okAppend (codegenBody_noTEA env tid) false s
    cases r with
    | true =>
      obtain ⟨m, rest2, hm⟩ := ih ⟨s.trs, s.evs ++ rest⟩
      refine ⟨m + 1, rest ++ rest2, ?_⟩
      simp only [codegenClicks]
      rw [run_bind, hr]
      simp only [bind, run_bind, run_pure, if_true]
      rw [hm]
      simp [List.append_assoc]
    | false =>
      refine ⟨0, rest, ?_⟩
      simp only [codegenClicks]
      rw [run_bind, hr]
      simp

/-- The adult-stepper locator of the codegen path. -/
def adultBtn : Loc := Loc.firstLoc (Loc.testId "stepper-adults-increase-button")

/-- When the adult stepper is visible, enabled and clickable, the
codegen inner loop performs exactly its requested clicks. -/
theorem codegenClicks_adults_eval (env : Env)
    (hvis : env.visible adultBtn 1000 = .ok true)
    (hen : env.enabled adultBtn = .ok true)
    (hclk : env.clickRes adultBtn = .ok ()) :
    ∀ k s, codegenClicks env "stepper-adults-increase-button" k s =
      (.ok k, ⟨s.trs, s.evs ++ List.replicate k (Ev.click adultBtn)⟩) := by
  intro k
  induction k with
  | zero =>
    intro s
    simp [codegenClicks, run_pure]
  | succ k ih =>
    intro s
    have hvis' : env.visible (Loc.firstLoc (Loc.testId "stepper-adults-increase-button")) 1000 = .ok true := hvis
    have hen' : env.enabled (Loc.firstLoc (Loc.testId "stepper-adults-increase-button")) = .ok true := hen
    have hclk' : env.clickRes (Loc.firstLoc (Loc.testId "stepper-adults-increase-button")) = .ok () := hclk
    simp only [codegenClicks]
    simp only [attempt, bind, run_bind, run_liftE, run_emit, run_pure, doClick,
      enabledIfVisible, hvis', hen', hclk', if_true, and_self]
    simp only [Bool.and_self, eq_self_iff_true, if_true, run_pure]
    rw [ih]
    simp [adultBtn, List.append_assoc, List.replicate_succ]

/-- Splitting the adult-click counter over an append. -/
theorem adultClickCount_append (l1 l2 : List Ev) :
    adultClickCount (l1 ++ l2) = adultClickCount l1 + adultClickCount l2 := by
  simp [adultClickCount, List.filter_append]

end Airbnb

namespace Airbnb

/-- Helper: the children/infants/pets tail of
`_apply_codegen_guest_clicks` always succeeds, only appends events, and
returns at least the adults already added. -/
theorem codegen_tail (env : Env) (a : Nat) : ∀ s, ∃ b rest,
    (do
      let c ← codegenClicks env "stepper-children-increase-button" 2
      let i ← codegenClicks env "stepper-infants-increase-button" 1
      let p ← codegenClicks env "stepper-pets-increase-button" 1
      pure (a + c + i + p) : M Nat) s = (.ok b, ⟨s.trs, s.evs ++ rest⟩) ∧
      a ≤ b := by
  intro s
  obtain ⟨c, rc, hc⟩ :=
    codegenClicks_okAppend env "stepper-children-increase-button" 2 s
  obtain ⟨i, ri, hi⟩ :=
    codegenClicks_okAppend env "stepper-infants-increase-button" 1 ⟨s.trs, s.evs ++ rc⟩
  obtain ⟨p, rp, hp⟩ :=
    codegenClicks_okAppend env "stepper-pets-increase-button" 1 ⟨s.trs, s.evs ++ (rc ++ ri)⟩
  refine ⟨a + c + i + p, rc ++ ri ++ rp, ?_, by omega⟩
  simp [bind, run_bind, hc, hi, hp, run_pure, List.append_assoc]

end Airbnb

/-! ### C4 theorems -/

/-- Concrete guest-picker snapshot for C4: the adults stepper is never
visible, the children stepper is visible, enabled and clickable. -/
def c4Env : Airbnb.Env :=
  { Airbnb.allFailEnv with
    visible := fun l _ =>
      if l = Airbnb.Loc.firstLoc (Airbnb.Loc.testId "stepper-children-increase-button") ||
          l = Airbnb.Loc.firstLoc
            (Airbnb.Loc.css "button[data-testid=\x27stepper-children-increase-button\x27]") then
        .ok true
      else .ok false,
    enabled := fun l =>
      if l = Airbnb.Loc.firstLoc (Airbnb.Loc.testId "stepper-children-increase-button") then
        .ok true
      else .ok false,
    clickRes := fun l =>
      if l = Airbnb.Loc.firstLoc (Airbnb.Loc.testId "stepper-children-increase-button") then
        .ok ()
      else .error .other }

/-- C4 counterexample: on `c4Env` the GuestPicker stage completes with a
returned total of 2 guests while not one adult increment was performed
(the event log contains zero clicks on any adult-increment
affordance). -/
theorem c4_counterexample :
    ((Airbnb.step04_run c4Env 3 2) ⟨[], []⟩).1 = .ok 2 ∧
    Airbnb.adultClickCount (((Airbnb.step04_run c4Env 3 2) ⟨[], []⟩).2.evs) = 0 ∧
    (2 : Nat) ≠ 0 := by
  refine ⟨by decide, by decide, by decide⟩

/-- C4 (amended): the guest-selection routine always *attempts* the
adults stepper first; whenever the adults increase button is visible,
enabled and clickable, the routine performs at least one successful
adult click and its returned total is at least 1.  When the adults
stepper is unavailable, however, the stage can complete with a positive
guest total and zero adult increments (see the counterexample). -/
theorem c4_adults_clicked_when_clickable (env : Airbnb.Env)
    (adults children : Nat) (s : Airbnb.St)
    (hvis : env.visible Airbnb.adultBtn 1000 = .ok true)
    (hen : env.enabled Airbnb.adultBtn = .ok true)
    (hclk : env.clickRes Airbnb.adultBtn = .ok ()) :
    ∃ total s',
      Airbnb.add_adults_children_randomly env adults children s =
        (.ok total, s') ∧
      1 ≤ total ∧
      Airbnb.adultClickCount s.evs + 1 ≤ Airbnb.adultClickCount s'.evs := by
  have h3 := Airbnb.codegenClicks_adults_eval env hvis hen hclk 3 s
  obtain ⟨b, rest, htail, hb⟩ := Airbnb.codegen_tail env 3
    ⟨s.trs, s.evs ++ List.replicate 3 (Ev.click Airbnb.adultBtn)⟩
  have happ : Airbnb.apply_codegen_guest_clicks env s =
      (.ok b, ⟨s.trs, (s.evs ++ List.replicate 3 (Ev.click Airbnb.adultBtn)) ++ rest⟩) := by
    simp only [Airbnb.apply_codegen_guest_clicks]
    rw [Airbnb.run_bind, h3]
    simpa using htail
  refine ⟨b, ⟨s.trs, (s.evs ++ List.replicate 3 (Ev.click Airbnb.adultBtn)) ++ rest⟩,
    ?_, by omega, ?_⟩
  · simp only [Airbnb.add_adults_children_randomly]
    rw [Airbnb.run_bind, happ]
    have hbpos : b > 0 := by omega
    simp [hbpos]
  · rw [Airbnb.adultClickCount_append, Airbnb.adultClickCount_append]
    have hrep : Airbnb.adultClickCount (List.replicate 3 (Ev.click Airbnb.adultBtn)) = 3 := by
      decide
    omega

/-- Guest-picker snapshot for the C4 witness: only the adults stepper is
visible, enabled and clickable. -/
def c4WitEnv : Airbnb.Env :=
  { Airbnb.allFailEnv with
    visible := fun l _ => if l = Airbnb.adultBtn then .ok true else .ok false,
    enabled := fun l => if l = Airbnb.adultBtn then .ok true else .ok false,
    clickRes := fun l => if l = Airbnb.adultBtn then .ok () else .error .other }

/-- C4 witness: with a clickable adults stepper the routine returns a
positive total including at least one adult click. -/
theorem c4_witness :
    ∃ total s',
      Airbnb.add_adults_children_randomly c4WitEnv 2 1 ⟨[], []⟩ =
        (.ok total, s') ∧
      1 ≤ total ∧
      Airbnb.adultClickCount ([] : List Ev) + 1 ≤ Airbnb.adultClickCount s'.evs :=
  c4_adults_clicked_when_clickable c4WitEnv 2 1 ⟨[], []⟩ (by decide) (by decide)
    (by decide)

namespace Airbnb

/-! ## Step 03 — Date picker (`automation/steps/step03_datepicker.py`) -/

/-- Probe selectors of `_calendar_is_visible`, in source order. -/
def calendarProbes : List String :=
  ["[aria-label=\x27Calendar\x27][role=\x27application\x27]",
   "button[data-state--date-string]",
   "button[aria-label=\x27Move forward to switch to the next month.\x27]",
   "button[aria-label*=\x27Move forward\x27]",
   "[data-testid=\x27expanded-searchbar-dates-calendar-tab\x27]"]

/-- Embedding of `Step03DatePicker._calendar_is_visible`: each probe
check individually wrapped, errors fall through. -/
def calendar_is_visible_scan (env : Env) : List String → Bool
  | [] => false
  | sel :: rest =>
    match env.visible (Loc.firstLoc (Loc.css sel)) 1500 with
    | .ok true => true
    | _ => calendar_is_visible_scan env rest

/-- Embedding of `_calendar_is_visible`. -/
def calendar_is_visible (env : Env) : Bool :=
  calendar_is_visible_scan env calendarProbes

/-- Expander candidates of `_open_date_picker` (clicked first each
round). -/
def pickerExpanders : List Loc :=
  [Loc.firstLoc (Loc.css "[data-testid=\x27little-search\x27]")]

/-- Opener candidates of `_open_date_picker`, in source order. -/
def pickerOpeners : List Loc :=
  [Loc.firstLoc (Loc.roleRe "button" "Check in|check-in|Add dates"),
   Loc.firstLoc (Loc.roleRe "button" "Check out|check-out|Add dates"),
   Loc.firstLoc (Loc.css "[data-testid*=\x27structured-search-input-field-split-dates-0\x27]"),
   Loc.firstLoc (Loc.css "[data-testid*=\x27structured-search-input-field-split-dates-1\x27]"),
   Loc.firstLoc (Loc.css "[data-testid*=\x27structured-search-input-field-dates\x27]")]

/-- One pass over a click-then-recheck candidate list in
`_open_date_picker`: click a visible candidate and succeed once the
calendar is visible; each iteration is wrapped in
`try/except: continue`. -/
def openListTry (env : Env) (ms : Nat) : List Loc → M Bool
  | [] => pure false
  | l :: rest => do
    let r ← attempt (do
        let vis ← liftE (env.visible l ms)
        if vis then do
          doClick env l
          pure (calendar_is_visible env)
        else pure false) false
    if r then pure true else openListTry env ms rest

/-- The `for _ in range(3)` force-open loop of `_open_date_picker`. -/
def openPickerRounds (env : Env) : Nat → M Bool
  | 0 => pure false
  | k + 1 => do
    let r1 ← openListTry env 500 pickerExpanders
    if r1 then pure true
    else do
      let r2 ← openListTry env 700 pickerOpeners
      if r2 then pure true
      else openPickerRounds env k

/-- Final `while time.time() - start < 4.0` wait of `_open_date_picker`;
`fuel` is the number of polls the wall clock allows. -/
def calendarWaitLoop (env : Env) : Nat → Bool
  | 0 => false
  | k + 1 => if calendar_is_visible env then true else calendarWaitLoop env k

/-- Embedding of `Step03DatePicker._open_date_picker`. -/
def open_date_picker (env : Env) : M Bool := do
  if calendar_is_visible env then pure true
  else do
    let r ← openPickerRounds env 3
    if r then pure true
    else pure (calendarWaitLoop env env.pollRounds)

/-- Day-button selector of `_get_available_day_buttons`. -/
def dayBtnSel : String :=
  "button[data-state--date-string]:not([disabled]):not([aria-disabled=\x27true\x27]):visible"

/-- Per-index attribute collection of `_get_available_day_buttons`:
rows raising are skipped, missing or empty attributes are skipped. -/
def collectDates (env : Env) : List Nat → List String
  | [] => []
  | i :: rest =>
    match env.attr (Loc.nthLoc (Loc.css dayBtnSel) i) "data-state--date-string" with
    | .error _ => collectDates env rest
    | .ok none => collectDates env rest
    | .ok (some d) =>
      if d ≠ "" then d :: collectDates env rest else collectDates env rest

/-- Order-preserving first-occurrence deduplication
(`list(dict.fromkeys(dates))`): keep an element only on its first
appearance. -/
def dedupFirstAux (seen : List String) : List String → List String
  | [] => []
  | x :: rest =>
    if x ∈ seen then dedupFirstAux seen rest
    else x :: dedupFirstAux (x :: seen) rest

/-- Order-preserving first-occurrence deduplication
(`list(dict.fromkeys(dates))`). -/
def dedupFirst (l : List String) : List String := dedupFirstAux [] l

/-- Embedding of `Step03DatePicker._get_available_day_buttons`; the
count read is not guarded, so its errors propagate. -/
def get_available_day_buttons (env : Env) : Except Err (List String) :=
  match env.count (Loc.css dayBtnSel) with
  | .error e => .error e
  | .ok n => .ok (dedupFirst (collectDates env (List.range n)))

/-- Candidate day-button selectors of `_select_two_available_days`, in
source order. -/
def availableDaySelectors : List String :=
  ["[role=\x27application\x27][aria-label=\x27Calendar\x27] button[aria-label*=\x27,\x27][aria-label*=\x2720\x27]:not([disabled]):not([aria-disabled=\x27true\x27]):visible",
   "button[data-state--date-string]:not([disabled]):not([aria-disabled=\x27true\x27]):visible",
   "button[aria-label*=\x27Available\x27]:not([disabled]):not([aria-disabled=\x27true\x27]):visible",
   "button[aria-label*=\x27,\x27][aria-label*=\x2720\x27]:not([disabled]):not([aria-disabled=\x27true\x27]):visible",
   "button[data-testid*=\x27calendar-day\x27]:not([disabled]):visible"]

/-- First selector whose match count is at least two; the unguarded
count reads propagate errors. -/
def firstSelectorWithTwo (env : Env) : List String → Except Err (Option String)
  | [] => .ok none
  | sel :: rest =>
    match env.count (Loc.css sel) with
    | .error e => .error e
    | .ok n => if n ≥ 2 then .ok (some sel) else firstSelectorWithTwo env rest

/-- Next-month selectors of `_click_next_month_once`, in source
order. -/
def nextMonthSelectors : List String :=
  ["button[aria-label=\x27Move forward to switch to the next month.\x27]",
   "button[aria-label*=\x27Move forward to switch to the\x27]",
   "button[aria-label*=\x27Next month\x27]"]

/-- Embedding of `Step03DatePicker._click_next_month_once`. -/
def click_next_month_once_loop (env : Env) : List String → M Unit
  | [] => pure ()
  | sel :: rest => do
    let r ← attempt (do
        let btn := Loc.firstLoc (Loc.css sel)
        let vis ← liftE (env.visible btn 800)
        let en ← enabledIfVisible env vis btn
        if vis && en then do
          doClick env btn
          pure true
        else pure false) false
    if r then pure () else click_next_month_once_loop env rest

/-- Embedding of `_click_next_month_once`. -/
def click_next_month_once (env : Env) : M Unit :=
  click_next_month_once_loop env nextMonthSelectors

/-- Python `str.strip()` / JS `String.prototype.trim()`: drop leading
and trailing whitespace. -/
def strTrim (s : String) : String :=
  ⟨((s.data.dropWhile Char.isWhitespace).reverse.dropWhile Char.isWhitespace).reverse⟩

/-- Python `str.lower()` / JS `String.prototype.toLowerCase()` over the
ASCII range. -/
def strLower (s : String) : String :=
  ⟨s.data.map Char.toLower⟩

/-- Text fallback of the label chain. -/
def readLabelText (env : Env) (btn : Loc) : Except Err String := do
  let t ← env.textContent btn
  pure (t.getD "")

/-- Accessible-label step of the label chain. -/
def readLabelAria (env : Env) (btn : Loc) : Except Err String := do
  let a ← env.attr btn "aria-label"
  match a with
  | some v => if v ≠ "" then pure v else readLabelText env btn
  | none => readLabelText env btn

/-- Embedding of the day-label read
`(btn.get_attribute("data-state--date-string") or
btn.get_attribute("aria-label") or btn.text_content() or "").strip()`. -/
def readLabel (env : Env) (btn : Loc) : Except Err String :=
  (do
    let d ← env.attr btn "data-state--date-string"
    match d with
    | some v => if v ≠ "" then pure v else readLabelAria env btn
    | none => readLabelAria env btn).map strTrim

/-- Check-in index of `_select_two_available_days`
(`min(2, total - 2) if total > 2 else 0`). -/
def dayStartIdx (total : Nat) : Nat :=
  if total > 2 then min 2 (total - 2) else 0

/-- Check-out index of `_select_two_available_days`
(`min(start_idx + 2, total - 1)`). -/
def dayEndIdx (total : Nat) : Nat :=
  min (dayStartIdx total + 2) (total - 1)

/-- One attempt of `_select_two_available_days`: find a selector with at
least two candidates, read the two labels at the fixed document-order
indices, reject empty or identical labels (advancing the month), then
click both. -/
def selectTwoDaysAttempt (env : Env) : M (Option (String × String)) := do
  let selOpt ← liftE (firstSelectorWithTwo env availableDaySelectors)
  match selOpt with
  | none => do
    click_next_month_once env
    pure none
  | some sel => do
    let total ← liftE (env.count (Loc.css sel))
    if total < 2 then do
      click_next_month_once env
      pure none
    else
      attemptWith (do
          let checkinBtn := Loc.nthLoc (Loc.css sel) (dayStartIdx total)
          let checkoutBtn := Loc.nthLoc (Loc.css sel) (dayEndIdx total)
          let ci ← liftE (readLabel env checkinBtn)
          let co ← liftE (readLabel env checkoutBtn)
          if ci = "" || co = "" || ci = co then do
            click_next_month_once env
            pure none
          else do
            doClick env checkinBtn
            doClick env checkoutBtn
            pure (some (ci, co)))
        (do
          click_next_month_once env
          pure none)

/-- The `for _ in range(3)` loop of `_select_two_available_days`. -/
def select_two_available_days (env : Env) : Nat → M (Option (String × String))
  | 0 => pure none
  | k + 1 => do
    let r ← selectTwoDaysAttempt env
    match r with
    | some pair => pure (some pair)
    | none => select_two_available_days env k

end Airbnb

namespace Airbnb

/-- One button of the page as seen by the `_select_two_days_via_js`
script: computed visibility, the `disabled` property, and the raw
attribute/text reads the script performs (absent attributes read as the
empty string, which is falsy exactly like JS `null`). -/
structure CalButton where
  visible : Bool
  disabled : Bool
  ariaDisabled : String
  ariaLabel : String
  text : String
  deriving Repr, DecidableEq, Inhabited

/-- JS regex test `/\d\x7b1,2\x7d,/.test(label)`: some run of one or
two digits immediately followed by a comma occurs in the string. -/
def hasDayComma : List Char → Bool
  | [] => false
  | c :: rest =>
    (c.isDigit && (rest.head? == some (Char.ofNat 44) ||
      (match rest with
       | d :: e :: _ => d.isDigit && e == Char.ofNat 44
       | _ => false))) ||
    hasDayComma rest

/-- JS regex test `/unavailable|past date|not available/i.test(label)`. -/
def labelUnavailable (label : String) : Bool :=
  let low := strLower label
  strContains low "unavailable" || strContains low "past date" ||
    strContains low "not available"

/-- Candidate filter of the `_select_two_days_via_js` script, in script
order: visible, not disabled, `aria-disabled` not `"true"`
(case-insensitively), trimmed label non-empty, day-comma pattern
present, and no unavailability wording. -/
def jsCandidates (btns : List CalButton) : List CalButton :=
  btns.filter fun b =>
    b.visible && !b.disabled && !(strLower b.ariaDisabled == "true") &&
      (let label := strTrim b.ariaLabel
       label ≠ "" && hasDayComma label.toList && !labelUnavailable label)

/-- Check-in candidate index of the JS path
(`Math.min(2, candidates.length - 2)`). -/
def jsFirstIdx (n : Nat) : Nat := min 2 (n - 2)

/-- Check-out candidate index of the JS path
(`Math.min(4, candidates.length - 1)`). -/
def jsSecondIdx (n : Nat) : Nat := min 4 (n - 1)

/-- Label the script reports for a picked candidate
(`(el.getAttribute("aria-label") || el.textContent || "").trim()`). -/
def jsPickLabel (b : CalButton) : String :=
  strTrim (if b.ariaLabel ≠ "" then b.ariaLabel else b.text)

/-- Value of the `_select_two_days_via_js` `page.evaluate` script over a
page whose buttons are `btns`: the `\x7bok, labels\x7d` object.  The
script also clicks the two picked candidates inside the page; the
oracle is a static snapshot, so those internal clicks do not alter
later reads. -/
def selectTwoDaysViaJsEval (btns : List CalButton) : Bool × List String :=
  let c := jsCandidates btns
  if c.length < 2 then (false, [])
  else
    (true,
     [jsPickLabel (c.getD (jsFirstIdx c.length) default),
      jsPickLabel (c.getD (jsSecondIdx c.length) default)])

/-- Embedding of `Step03DatePicker._select_two_days_via_js`; the
`page.evaluate` outcome is the `evalDates` oracle, and any raise is
swallowed (`except Exception: pass`). -/
def select_two_days_via_js (env : Env) : M (Option (String × String)) := do
  let r ← attempt (liftE env.evalDates) (false, [])
  match r with
  | (true, [l1, l2]) => pure (some (l1, l2))
  | _ => pure none

/-- The next-month role locator of `_select_by_role_date_buttons`. -/
def roleNextRe : Loc :=
  Loc.firstLoc (Loc.roleRe "button" "Move forward to switch to the")

/-- The `for _ in range(4)` advance loop of
`_select_by_role_date_buttons`; note an exception breaks out of the
loop rather than continuing. -/
def roleNextClicks (env : Env) : Nat → M Unit
  | 0 => pure ()
  | k + 1 => do
    let r ← attempt (do
        let vis ← liftE (env.visible roleNextRe 1200)
        if vis then doClick env roleNextRe
        pure true) false
    if r then roleNextClicks env k else pure ()

/-- The hard-coded exact accessible labels of
`_select_by_role_date_buttons`. -/
def exactJuneLabels : List String :=
  ["15, Monday, June 2026.", "18, Thursday, June 2026."]

/-- Exact-label click loop of `_select_by_role_date_buttons`: a label
joins the chosen list only after its button was visible, enabled and
clicked; exceptions skip the label. -/
def clickExactLabels (env : Env) : List String → M (List String)
  | [] => pure []
  | label :: rest => do
    let r ← attempt (do
        let btn := Loc.firstLoc (Loc.role "button" label)
        let vis ← liftE (env.visible btn 1200)
        let en ← enabledIfVisible env vis btn
        if vis && en then do
          doClick env btn
          pure [label]
        else pure []) []
    let others ← clickExactLabels env rest
    pure (r ++ others)

/-- The generic day-button role locator of
`_select_by_role_date_buttons` (regex `^\d\x7b1,2\x7d,\s`). -/
def dayRoleRe : Loc := Loc.roleRe "button" "^\\d\x7b1,2\x7d,\\s"

/-- Generic index loop of `_select_by_role_date_buttons`: collect the
labels of the first two clickable labelled day buttons, stopping at
two; per-index exceptions skip the index. -/
def roleLoopClicks (env : Env) (acc : List String) : List Nat → M (List String)
  | [] => pure acc
  | i :: rest => do
    let r ← attempt (do
        let btn := Loc.nthLoc dayRoleRe i
        let vis ← liftE (env.visible btn 600)
        let en ← enabledIfVisible env vis btn
        if !(vis && en) then pure none
        else do
          let a ← liftE (env.attr btn "aria-label")
          let label := a.getD ""
          if label = "" then pure none
          else do
            doClick env btn
            pure (some label)) none
    match r with
    | none => roleLoopClicks env acc rest
    | some label =>
      if (acc ++ [label]).length = 2 then pure (acc ++ [label])
      else roleLoopClicks env (acc ++ [label]) rest

/-- Embedding of `Step03DatePicker._select_by_role_date_buttons`; the
unguarded `day_buttons.count()` read propagates errors. -/
def select_by_role_date_buttons (env : Env) : M (Option (String × String)) := do
  roleNextClicks env 4
  let chosen ← clickExactLabels env exactJuneLabels
  match chosen with
  | [l1, l2] => pure (some (l1, l2))
  | _ => do
    let total ← liftE (env.count dayRoleRe)
    let selected ← roleLoopClicks env [] (List.range total)
    match selected with
    | [l1, l2] => pure (some (l1, l2))
    | _ => pure none

/-- The `for _ in range(3)` outer retry of `_select_random_two_dates`
around `_select_two_available_days` (which itself retries three
times). -/
def selectDaysOuter (env : Env) : Nat → M (Option (String × String))
  | 0 => pure none
  | k + 1 => do
    let r ← select_two_available_days env 3
    match r with
    | some pair => pure (some pair)
    | none => selectDaysOuter env k

/-- Check-out index of the final fallback of
`_select_random_two_dates` (`min(idx1 + gap, len(date_values) - 1)`). -/
def fallbackIdx2 (idx1 gap n : Nat) : Nat := min (idx1 + gap) (n - 1)

/-- The per-date click selector of the final fallback. -/
def dayBtnSelFor (d : String) : String :=
  "button[data-state--date-string=\x27" ++ d ++
    "\x27]:not([disabled]):not([aria-disabled=\x27true\x27])"

/-- Embedding of `Step03DatePicker._select_random_two_dates`.  `ridx`
and `rgap` stand for the two `random.randint` draws of the final
fallback (`idx1` and `gap`); they are meaningful when they lie in the
drawn ranges (`idx1 ≤ min(start_max, 10)`, `1 ≤ gap`).  On the fallback
path the `self.checkin_date`/`self.checkout_date` fields are assigned
before the clicks, so they survive a click exception even though the
flags come back false. -/
def select_random_two_dates (env : Env) (ridx rgap : Nat) :
    M (Bool × Bool × Option String × Option String) := do
  let r1 ← selectDaysOuter env 3
  match r1 with
  | some (ci, co) => pure (true, true, some ci, some co)
  | none => do
    let r2 ← select_two_days_via_js env
    match r2 with
    | some (ci, co) => pure (true, true, some ci, some co)
    | none => do
      let r3 ← select_by_role_date_buttons env
      match r3 with
      | some (ci, co) => pure (true, true, some ci, some co)
      | none => do
        let dv0 ← liftE (get_available_day_buttons env)
        let dv ← if dv0.length < 2 then do
            let opened ← open_date_picker env
            if opened then liftE (get_available_day_buttons env) else pure dv0
          else pure dv0
        if dv.length < 2 then pure (false, false, none, none)
        else do
          let idx1 := ridx
          let idx2 := fallbackIdx2 idx1 rgap dv.length
          let ci := dv.getD idx1 ""
          let co := dv.getD idx2 ""
          let r ← attemptWith (do
              doClick env (Loc.firstLoc (Loc.css (dayBtnSelFor ci)))
              doClick env (Loc.firstLoc (Loc.css (dayBtnSelFor co)))
              pure true) (pure false)
          if r then pure (true, true, some ci, some co)
          else pure (false, false, some ci, some co)

/-- Embedding of `Step03DatePicker.run`: open the picker, record the
open verdict, bail out with no dates when it stayed closed, otherwise
select two dates and record the selection verdict; the returned pair is
the `\x7bcheckin, checkout\x7d` dict. -/
def step03_run (env : Env) (ridx rgap : Nat) : M (Option String × Option String) := do
  let picker_open ← open_date_picker env
  take_screenshot "step03_date_picker_open"
  record 3 "Date Picker Modal Open and Visibility Test" picker_open
  if picker_open then do
    let r ← select_random_two_dates env ridx rgap
    take_screenshot "step03_dates_selected"
    record 3 "Date Selection Validation" (r.1 && r.2.1)
    pure (r.2.2.1, r.2.2.2)
  else pure (none, none)

end Airbnb

namespace Airbnb

/-- Inversion of a successful monadic bind: the first computation
succeeded and its continuation produced the final outcome. -/
theorem mBind_ok {α β : Type} {x : M α} {f : α → M β} {b : β} {s s2 : St}
    (hh : (x >>= f) s = (.ok b, s2)) :
    ∃ a s1, x s = (.ok a, s1) ∧ f a s1 = (.ok b, s2) := by
  rcases hx : x s with ⟨r, s1⟩
  rw [run_bind, hx] at hh
  cases r with
  | error e => simp at hh
  | ok a => exact ⟨a, s1, rfl, hh⟩

/-- Inversion of a successful guarded computation: either the body
succeeded with the given outcome, or it raised and the handler
produced it. -/
theorem attemptWith_ok {α : Type} {x h : M α} {v : α} {s s2 : St}
    (hh : attemptWith x h s = (.ok v, s2)) :
    x s = (.ok v, s2) ∨ ∃ e s1, x s = (.error e, s1) ∧ h s1 = (.ok v, s2) := by
  rcases hx : x s with ⟨r, s1⟩
  cases r with
  | ok a =>
    left
    have h2 : attemptWith x h s = (.ok a, s1) := by
      simp [attemptWith, hx]
    rw [h2] at hh
    exact hh
  | error e =>
    right
    refine ⟨e, s1, rfl, ?_⟩
    have h2 : attemptWith x h s = h s1 := by
      simp [attemptWith, hx]
    rw [h2] at hh
    exact hh

/-- Membership in the deduplicated tail implies membership in the
remaining input and absence from the already-seen prefix. -/
theorem mem_dedupFirstAux {a : String} : ∀ {l seen : List String},
    a ∈ dedupFirstAux seen l → a ∈ l ∧ a ∉ seen := by
  intro l
  induction l with
  | nil => intro seen h; simp [dedupFirstAux] at h
  | cons x rest ih =>
    intro seen h
    rw [dedupFirstAux] at h
    by_cases hx : x ∈ seen
    · rw [if_pos hx] at h
      obtain ⟨h1, h2⟩ := ih h
      exact ⟨List.mem_cons_of_mem _ h1, h2⟩
    · rw [if_neg hx] at h
      rcases List.mem_cons.mp h with rfl | h2
      · exact ⟨List.mem_cons_self _ _, hx⟩
      · obtain ⟨h1, h2⟩ := ih h2
        refine ⟨List.mem_cons_of_mem _ h1, fun hmem => h2 ?_⟩
        exact List.mem_cons_of_mem _ hmem

/-- Membership in the deduplicated list implies membership in the
original. -/
theorem mem_dedupFirst {a : String} {l : List String}
    (h : a ∈ dedupFirst l) : a ∈ l :=
  (mem_dedupFirstAux h).1

/-- The accumulator pass yields a duplicate-free list. -/
theorem dedupFirstAux_nodup : ∀ (l seen : List String),
    (dedupFirstAux seen l).Nodup := by
  intro l
  induction l with
  | nil => intro seen; simp [dedupFirstAux]
  | cons x rest ih =>
    intro seen
    rw [dedupFirstAux]
    by_cases hx : x ∈ seen
    · rw [if_pos hx]; exact ih seen
    · rw [if_neg hx]
      refine List.nodup_cons.mpr ⟨?_, ih (x :: seen)⟩
      intro hmem
      exact (mem_dedupFirstAux hmem).2 (List.mem_cons_self _ _)

/-- First-occurrence deduplication yields a duplicate-free list. -/
theorem dedupFirst_nodup (l : List String) : (dedupFirst l).Nodup :=
  dedupFirstAux_nodup l []

end Airbnb

namespace Airbnb

/-- A successful primary-path attempt reports two distinct labels: the
only branch that can produce `some (ci, co)` is guarded by the
rejection of empty or identical labels. -/
theorem selectTwoDaysAttempt_ok_ne {env : Env} {s s2 : St} {ci co : String}
    (h : selectTwoDaysAttempt env s = (.ok (some (ci, co)), s2)) :
    ci ≠ co := by
  unfold selectTwoDaysAttempt at h
  obtain ⟨selOpt, s1, hx, h⟩ := mBind_ok h
  rcases selOpt with _ | sel
  · obtain ⟨u, s1a, hu, hp⟩ := mBind_ok h
    simp at hp
  · obtain ⟨total, s1a, ht, h⟩ := mBind_ok h
    by_cases hlt : total < 2
    · rw [if_pos hlt] at h
      obtain ⟨u, s1b, hu, hp⟩ := mBind_ok h
      simp at hp
    · rw [if_neg hlt] at h
      rcases attemptWith_ok h with hb | ⟨e, s1b, hbe, hp⟩
      · obtain ⟨ci0, s1b, hci, hb⟩ := mBind_ok hb
        obtain ⟨co0, s1c, hco, hb⟩ := mBind_ok hb
        by_cases hc : (ci0 = "" || co0 = "" || ci0 = co0 : Bool) = true
        · rw [if_pos hc] at hb
          obtain ⟨u, s1d, hu, hp⟩ := mBind_ok hb
          simp at hp
        · rw [if_neg hc] at hb
          obtain ⟨u1, s1d, hu1, hb⟩ := mBind_ok hb
          obtain ⟨u2, s1e, hu2, hp⟩ := mBind_ok hb
          rw [run_pure] at hp
          have h1 : (Except.ok (some (ci0, co0)) : Except Err (Option (String × String))) = .ok (some (ci, co)) := congrArg Prod.fst hp
          have h2 : ci0 = ci ∧ co0 = co := by
            cases h1
            exact ⟨rfl, rfl⟩
          simp only [Bool.or_eq_true, decide_eq_true_eq, not_or] at hc
          rcases h2 with ⟨rfl, rfl⟩
          exact hc.2
      · obtain ⟨u, s1c, hu, hp2⟩ := mBind_ok hp
        simp at hp2

end Airbnb

/-- A visible, enabled page button whose accessible label is
`"5, May"`: it passes every filter of the `_select_two_days_via_js`
script, yet carries no `data-state--date-string` attribute, no
`"Available"` or `"calendar-day"` marker, and its label contains no
`"20"`, so none of the `_select_two_available_days` selectors can match
it. -/
def c5Button : Airbnb.CalButton :=
  { visible := true, disabled := false, ariaDisabled := "",
    ariaLabel := "5, May", text := "" }

/-- A page where the calendar probe already succeeds, no
`_select_two_available_days` selector matches two candidates, and the
JS fallback sees exactly two clickable day buttons that share the
accessible label `"5, May"`. -/
def c5Env : Airbnb.Env :=
  { Airbnb.allFailEnv with
    visible := fun l _ =>
      if l = Airbnb.Loc.firstLoc
          (Airbnb.Loc.css "[aria-label=\x27Calendar\x27][role=\x27application\x27]") then
        .ok true
      else .ok false,
    evalDates := .ok (Airbnb.selectTwoDaysViaJsEval [c5Button, c5Button]) }

/-- C5 counterexample: on `c5Env` the DatePicker stage records the
`Date Selection Validation` result as passed and returns identical
check-in and check-out labels, refuting both the distinct-labels clause
and the strictly-increasing-index reading (the two reported labels are
the same). -/
theorem c5_counterexample :
    ((Airbnb.step03_run c5Env 0 0) ⟨[], []⟩).1 =
      .ok (some "5, May", some "5, May") ∧
    (3, "Date Selection Validation", true) ∈
      ((Airbnb.step03_run c5Env 0 0) ⟨[], []⟩).2.trs := by
  exact ⟨by decide, by decide⟩

/-- C5 (amended): the date-selection guarantees hold per path.  (1) On
the primary `_select_two_available_days` path the fixed document-order
indices satisfy `start_idx < end_idx` whenever at least two candidates
exist, and (2) any successful attempt reports two distinct labels
(empty or identical labels are rejected).  (3) On the JS-evaluate
fallback the two candidate indices are strictly increasing in document
order whenever at least two candidates exist, and (4) the reported
labels are exactly the labels at those two indices — but nothing
forbids two distinct buttons from sharing one label, which is the
refuted part of the original claim.  (5) On the final
`data-state--date-string` fallback the check-out index strictly exceeds
the check-in index for every in-range draw, and (6) the deduplicated
date values at distinct indices are always distinct. -/
theorem c5_dates_distinct_per_path :
    (∀ total, 2 ≤ total → Airbnb.dayStartIdx total < Airbnb.dayEndIdx total) ∧
    (∀ (env : Airbnb.Env) (s s2 : Airbnb.St) (ci co : String),
        Airbnb.selectTwoDaysAttempt env s = (.ok (some (ci, co)), s2) → ci ≠ co) ∧
    (∀ n, 2 ≤ n → Airbnb.jsFirstIdx n < Airbnb.jsSecondIdx n) ∧
    (∀ btns, 2 ≤ (Airbnb.jsCandidates btns).length →
        Airbnb.selectTwoDaysViaJsEval btns =
          (true,
           [Airbnb.jsPickLabel ((Airbnb.jsCandidates btns).getD
              (Airbnb.jsFirstIdx (Airbnb.jsCandidates btns).length) default),
            Airbnb.jsPickLabel ((Airbnb.jsCandidates btns).getD
              (Airbnb.jsSecondIdx (Airbnb.jsCandidates btns).length) default)])) ∧
    (∀ idx1 gap n, 1 ≤ gap → idx1 + 2 ≤ n →
        idx1 < Airbnb.fallbackIdx2 idx1 gap n) ∧
    (∀ (l : List String) (i j : Nat), i < j → j < (Airbnb.dedupFirst l).length →
        (Airbnb.dedupFirst l).getD i "" ≠ (Airbnb.dedupFirst l).getD j "") := by
  refine ⟨?_, ?_, ?_, ?_, ?_, ?_⟩
  · intro total h
    simp only [Airbnb.dayStartIdx, Airbnb.dayEndIdx]
    split_ifs with h2 <;> omega
  · intro env s s2 ci co h
    exact Airbnb.selectTwoDaysAttempt_ok_ne h
  · intro n h
    simp only [Airbnb.jsFirstIdx, Airbnb.jsSecondIdx]
    omega
  · intro btns h
    simp only [Airbnb.selectTwoDaysViaJsEval]
    rw [if_neg (by omega)]
  · intro idx1 gap n h1 h2
    simp only [Airbnb.fallbackIdx2]
    omega
  · intro l i j hij hj heq
    have hi : i < (Airbnb.dedupFirst l).length := lt_trans hij hj
    rw [List.getD_eq_getElem?_getD, List.getD_eq_getElem?_getD,
      List.getElem?_eq_getElem hi, List.getElem?_eq_getElem hj] at heq
    simp only [Option.getD_some] at heq
    have := ((Airbnb.dedupFirst_nodup l).getElem_inj_iff).mp heq
    omega

/-- A page snapshot on which the primary path succeeds: every day
selector reports two candidates and the two probed rows carry distinct
`data-state--date-string` values. -/
def c5WitEnv : Airbnb.Env :=
  { Airbnb.allFailEnv with
    count := fun _ => .ok 2,
    attr := fun l _ =>
      match l with
      | Airbnb.Loc.nthLoc _ 0 => .ok (some "2026-06-15")
      | Airbnb.Loc.nthLoc _ 1 => .ok (some "2026-06-18")
      | _ => .ok none,
    clickRes := fun _ => .ok () }

/-- C5 witness: every conjunct of the amended theorem instantiated at
concrete inputs, including a concrete successful primary-path run. -/
theorem c5_witness :
    Airbnb.dayStartIdx 5 < Airbnb.dayEndIdx 5 ∧
    ("2026-06-15" : String) ≠ "2026-06-18" ∧
    Airbnb.jsFirstIdx 2 < Airbnb.jsSecondIdx 2 ∧
    Airbnb.selectTwoDaysViaJsEval [c5Button, c5Button] =
      (true,
       [Airbnb.jsPickLabel ((Airbnb.jsCandidates [c5Button, c5Button]).getD
          (Airbnb.jsFirstIdx (Airbnb.jsCandidates [c5Button, c5Button]).length) default),
        Airbnb.jsPickLabel ((Airbnb.jsCandidates [c5Button, c5Button]).getD
          (Airbnb.jsSecondIdx (Airbnb.jsCandidates [c5Button, c5Button]).length) default)]) ∧
    0 < Airbnb.fallbackIdx2 0 1 2 ∧
    (Airbnb.dedupFirst ["a", "b", "a"]).getD 0 "" ≠
      (Airbnb.dedupFirst ["a", "b", "a"]).getD 1 "" :=
  ⟨c5_dates_distinct_per_path.1 5 (by decide),
   c5_dates_distinct_per_path.2.1 c5WitEnv ⟨[], []⟩
     ⟨[], [Airbnb.Ev.click (Airbnb.Loc.nthLoc
             (Airbnb.Loc.css Airbnb.availableDaySelectors.headI) 0),
           Airbnb.Ev.click (Airbnb.Loc.nthLoc
             (Airbnb.Loc.css Airbnb.availableDaySelectors.headI) 1)]⟩
     "2026-06-15" "2026-06-18" (by decide),
   c5_dates_distinct_per_path.2.2.1 2 (by decide),
   c5_dates_distinct_per_path.2.2.2.1 [c5Button, c5Button] (by decide),
   c5_dates_distinct_per_path.2.2.2.2.1 0 1 2 (by decide) (by decide),
   c5_dates_distinct_per_path.2.2.2.2.2 ["a", "b", "a"] 0 1 (by decide) (by decide)⟩

namespace Airbnb

/-! ## Step 01 — Landing and search (`automation/steps/step01_landing.py`) -/

/-- Quick-close candidates of `_close_modal_now`, in source order (the
loop takes `.first` of each). -/
def quickCloseTargets : List Loc :=
  [Loc.role "button" "Close",
   Loc.role "button" "Dismiss",
   Loc.css "button[aria-label*=\x27close\x27 i]",
   Loc.css "button[aria-label*=\x27dismiss\x27 i]",
   Loc.firstLoc (Loc.css "[role=\x27dialog\x27] button")]

/-- Per-target loop of `_close_modal_now`: click any visible target,
continue regardless (no early return). -/
def closeTargetsLoop (env : Env) : List Loc → M Unit
  | [] => pure ()
  | t :: rest => do
    attempt (do
        let btn := Loc.firstLoc t
        let vis ← liftE (env.visible btn 250)
        if vis then doClick env btn
        pure ()) ()
    closeTargetsLoop env rest

/-- Embedding of `Step01LandingAndSearch._close_modal_now`: skip
entirely when the focus/has-text page script reports the search input
active (script tagged `closeModalSkip`), otherwise run the quick-close
targets and press Escape. -/
def close_modal_now (env : Env) : M Unit := do
  let skip ← attempt (liftE (env.evalBool "closeModalSkip")) false
  if skip then pure ()
  else do
    closeTargetsLoop env quickCloseTargets
    attempt (doPress env "Escape") ()

/-- Embedding of `Step01LandingAndSearch.close_any_modal`. -/
def close_any_modal (env : Env) : M Unit := do
  attempt (doPress env "Escape") ()
  close_modal_now env

/-- The welcome dialog locator (`page.get_by_role("dialog")`). -/
def welcomeDialog : Loc := Loc.roleAny "dialog"

/-- Close-button candidates inside the welcome dialog, in source
order. -/
def welcomeCloseButtons : List Loc :=
  [Loc.sub welcomeDialog "role=button[name=\x27Close\x27]",
   Loc.sub welcomeDialog "role=button[name=\x27Dismiss\x27]",
   Loc.sub welcomeDialog "button[aria-label*=\x27close\x27]"]

/-- Close-button loop of `_wait_and_close_welcome_popup`: stop at the
first visible candidate after clicking it. -/
def welcomeButtonsLoop (env : Env) : List Loc → M Bool
  | [] => pure false
  | b :: rest => do
    let r ← attempt (do
        let f := Loc.firstLoc b
        let vis ← liftE (env.visible f 400)
        if vis then do
          doClick env f
          pure true
        else pure false) false
    if r then pure true else welcomeButtonsLoop env rest

/-- Embedding of `_wait_and_close_welcome_popup` (`while time.time() -
start < max_wait_sec` polling loop; `fuel` is the number of polls the
wall clock allows). -/
def wait_and_close_welcome_popup (env : Env) : Nat → M Unit
  | 0 => pure ()
  | k + 1 => do
    let r ← attempt (do
        close_modal_now env
        let vis ← liftE (env.visible (Loc.firstLoc welcomeDialog) 500)
        if vis then do
          let closed ← welcomeButtonsLoop env welcomeCloseButtons
          if closed then pure true
          else do
            doPress env "Escape"
            pure true
        else pure false) false
    if r then pure ()
    else wait_and_close_welcome_popup env k

/-- One probe round of `_wait_for_date_picker_auto_open` (per-probe
`try/except: continue`, 400 ms checks). -/
def step01ProbeScan (env : Env) : List String → Bool
  | [] => false
  | sel :: rest =>
    match env.visible (Loc.firstLoc (Loc.css sel)) 400 with
    | .ok true => true
    | _ => step01ProbeScan env rest

/-- Journey-level embedding of `_wait_for_date_picker_auto_open`: poll
the probe rounds until the wall clock allows no more (`fuel` polls);
only queries, no interactions. -/
def step01_wait_auto_open (env : Env) : Nat → Bool
  | 0 => false
  | k + 1 =>
    if step01ProbeScan env datePickerProbes then true
    else step01_wait_auto_open env k

/-- The main search box (`get_by_test_id("structured-search-input-field-query")`). -/
def queryField : Loc := Loc.testId "structured-search-input-field-query"

/-- Nested-input fallback of `_resolve_text_input`. -/
def nestedInput (env : Env) (locator : Loc) : M (Option Loc) :=
  attempt (do
      let nested := Loc.firstLoc (Loc.sub locator "input, textarea")
      let vis ← liftE (env.visible nested 1200)
      if vis then pure (some nested) else pure none) none

/-- Embedding of `Step01LandingAndSearch._resolve_text_input`: keep the
locator itself when its tag name evaluates to `input`/`textarea`,
otherwise look for a visible nested input. -/
def resolve_text_input (env : Env) (locator : Loc) : M (Option Loc) := do
  let tag ← attempt (do
      let t ← liftE (env.tagName locator)
      pure (some (strLower t))) none
  match tag with
  | some t =>
    if t = "input" || t = "textarea" then pure (some locator)
    else nestedInput env locator
  | none => nestedInput env locator

/-- Click candidates of `_open_where_and_get_input`, in source order. -/
def whereClickCandidates : List Loc :=
  [Loc.testId "structured-search-input-field-query",
   Loc.role "button" "Where",
   Loc.role "button" "Search destinations"]

/-- Click loop of `_open_where_and_get_input`: click the first visible
candidate and stop; errors skip the candidate. -/
def whereClickLoop (env : Env) : List Loc → M Unit
  | [] => pure ()
  | t :: rest => do
    let r ← attempt (do
        let vis ← liftE (env.visible t 1500)
        if vis then do
          doClick env t
          pure true
        else pure false) false
    if r then pure () else whereClickLoop env rest

/-- Input candidates of `_open_where_and_get_input`, in source order. -/
def whereInputCandidates : List Loc :=
  [Loc.placeholderSel "Search destinations",
   Loc.css "input[placeholder*=\x27destination\x27]",
   Loc.css "input[type=\x27text\x27]"]

/-- Input scan of `_open_where_and_get_input`: first visible candidate
(as `.first`), `None` when none is. -/
def whereInputLoop (env : Env) : List Loc → M (Option Loc)
  | [] => pure none
  | t :: rest => do
    let r ← attempt (do
        let f := Loc.firstLoc t
        let vis ← liftE (env.visible f 2000)
        if vis then pure (some f) else pure none) none
    match r with
    | some f => pure (some f)
    | none => whereInputLoop env rest

/-- Embedding of `Step01LandingAndSearch._open_where_and_get_input`. -/
def open_where_and_get_input (env : Env) : M (Option Loc) := do
  whereClickLoop env whereClickCandidates
  whereInputLoop env whereInputCandidates

/-- Retry loop over generic role options at the end of
`_enter_destination_and_select`. -/
def optionsRetryLoop (env : Env) : Nat → M Bool
  | 0 => pure false
  | k + 1 => do
    let r ← attempt (do
        let opt := Loc.firstLoc (Loc.roleAny "option")
        let vis ← liftE (env.visible opt 1500)
        if vis then do
          doClick env opt
          let _ := step01_wait_auto_open env env.pollRounds
          pure true
        else pure false) false
    if r then pure true else optionsRetryLoop env k

/-- Embedding of `Step01LandingAndSearch._enter_destination_and_select`.
The primary typed flow is one guarded block; its recovery path
(click, select-all, retype) continues into the `option-0` and generic
option fallbacks only when it does not itself raise. -/
def enter_destination_and_select (env : Env) (destination : String) : M Bool := do
  close_modal_now env
  let r1 ← attempt (do
      let vis ← liftE (env.visible queryField 2500)
      if vis then do
        close_modal_now env
        doClick env queryField
        let ti ← resolve_text_input env queryField
        let typing := ti.getD queryField
        slow_type env typing destination
        liftE (env.waitSelectorRes (Loc.css "[role=\x22option\x22]"))
        doClick env (Loc.firstLoc (Loc.roleAny "option"))
        close_modal_now env
        let _ := step01_wait_auto_open env env.pollRounds
        take_screenshot "step01_search_typed"
        pure true
      else pure false) false
  if r1 then pure true
  else do
    let sf ← open_where_and_get_input env
    match sf with
    | none => pure false
    | some search_field => do
      let ti ← resolve_text_input env search_field
      match ti with
      | none => pure false
      | some typing => do
        let r2 ← attemptWith (do
            close_modal_now env
            doClick env typing
            slow_type env typing destination
            liftE (env.waitSelectorRes (Loc.css "[role=\x22option\x22]"))
            doClick env (Loc.firstLoc (Loc.roleAny "option"))
            close_modal_now env
            let _ := step01_wait_auto_open env env.pollRounds
            take_screenshot "step01_search_typed"
            pure (some true))
          (attemptWith (do
              doClick env typing
              doPressOn env typing "Control+A"
              doPressOn env typing "Backspace"
              doType env typing destination
              pure none)
            (pure (some false)))
        match r2 with
        | some b => pure b
        | none => do
          let r3 ← attempt (do
              let option0 := Loc.testId "option-0"
              let vis ← liftE (env.visible option0 1500)
              if vis then do
                doClick env option0
                let _ := step01_wait_auto_open env env.pollRounds
                pure true
              else pure false) false
          if r3 then pure true
          else do
            let r4 ← optionsRetryLoop env 3
            if r4 then pure true
            else do
              attempt (doPress env "Enter") ()
              pure false

/-- Embedding of `Step01LandingAndSearch.run`.  The `page.goto` call is
unguarded; the load-state wait handles only `PlaywrightTimeoutError`,
and its `wait_for_selector` recovery is itself unguarded, so a timed-out
selector there aborts the stage.  `destination` stands for the
`random.choice` draw over the location list. -/
def step01_run (env : Env) (airbnb_url destination : String) : M String := do
  doGoto env airbnb_url
  attemptTimeout (liftE env.loadStateRes)
    (liftE (env.waitSelectorRes
      (Loc.css "[data-testid=\x27structured-search-input-field-query\x27]")))
  close_any_modal env
  close_modal_now env
  take_screenshot "step01_open_homepage"
  record 1 "Homepage Load Verification" (strContains env.url "airbnb")
  wait_and_close_welcome_popup env env.popupRounds
  let clicked ← enter_destination_and_select env destination
  take_screenshot "step01_location_selected"
  let _ := clicked
  record 1 "Search Field Input" true
  pure destination

end Airbnb

namespace Airbnb

/-! ## Step 06 — Listing details (`automation/steps/step06_details.py`) -/

/-- The details dict built by `Step06ListingDetails.run`. -/
structure DetailsResult where
  title : String
  subtitle : String
  image_urls : List String
  url : String
  deriving DecidableEq, Repr, Inhabited

/-- The room-link xpath of `_open_listing`. -/
def roomsLinksXpath : String := "//a[contains(@href,\x27/rooms/\x27)]"

/-- Embedding of `Step06ListingDetails._open_listing`: navigate by the
record's own URL when it looks like a room link, else follow the first
room anchor on the page, else the codegen-inspired exact-group
fallback. -/
def open_listing (env : Env) (listing : Listing) : M Bool := do
  let lu := listing.listing_url
  if lu ≠ "" && strContains lu "airbnb.com/rooms/" then do
    doGoto env lu
    pure (strContains env.url "/rooms/")
  else if lu ≠ "" && lu.startsWith "/rooms/" then do
    doGoto env ("https://www.airbnb.com" ++ lu)
    pure (strContains env.url "/rooms/")
  else do
    let links := safe_find_all env roomsLinksXpath
    let r ← (match links with
      | [] => pure none
      | l0 :: _ =>
        attempt (do
          let href ← liftE (env.attr l0 "href")
          match href with
          | some h =>
            if h ≠ "" then do
              let h2 := if h.startsWith "/" then "https://www.airbnb.com" ++ h else h
              doGoto env h2
              pure (some (strContains env.url "/rooms/"))
            else pure none
          | none => pure none) none)
    match r with
    | some b => pure b
    | none => do
      attempt (doClick env (Loc.role "button" "Close")) ()
      let r2 ← attempt (do
          let group := Loc.filterHasText (Loc.roleAny "group")
            "Guest favoriteGuest favoriteApartment in DhakaContemporary Spacious Urban"
          doClick env (Loc.sub group "label=\x27Apartment in Dhaka\x27 exact")
          pure (some (strContains env.url "/rooms/"))) none
      match r2 with
      | some b => pure b
      | none => pure false

/-- Title selectors of `_get_title`, in source order. -/
def titleSelectors : List String := ["h1", "//h1", "//section//h1"]

/-- Subtitle selectors of `_get_subtitle`, in source order. -/
def subtitleSelectors : List String :=
  ["//h1/following::h2[1]",
   "//div[@data-section-id=\x27OVERVIEW_DEFAULT_V2\x27]//h2",
   "//div[@data-plugin-in-point-id=\x27OVERVIEW_DEFAULT_V2\x27]//h2",
   "(//h2)[1]",
   "h2"]

/-- Shared selector loop of `_get_title`/`_get_subtitle`: first found
element whose stripped text is longer than two characters; read errors
skip the selector. -/
def headingLoop (env : Env) : List String → M String
  | [] => pure ""
  | sel :: rest =>
    match safe_find env sel with
    | none => headingLoop env rest
    | some el => do
      let r ← attempt (do
          let t ← liftE (env.textContent el)
          let text := strTrim (t.getD "")
          if text ≠ "" && text.length > 2 then pure (some text) else pure none)
        none
      match r with
      | some text => pure text
      | none => headingLoop env rest

/-- Gallery selectors of `_collect_gallery_images`, in source order. -/
def gallerySelectors : List String :=
  ["//div[contains(@data-section-id,\x27HERO\x27) or contains(@data-plugin-in-point-id,\x27HERO\x27)]//img",
   "//div[@data-section-id=\x27HERO_DEFAULT\x27]//img",
   "//button[contains(@aria-label,\x27photo\x27) or contains(@aria-label,\x27Photo\x27)]//img",
   "//div[.//button[contains(text(),\x27Show all photos\x27)]]//img",
   "(//div[contains(@class,\x27section\x27)])[1]//img"]

/-- Third link of the image source chain (`data-src`). -/
def imgSrc3 (env : Env) (img : Loc) : Except Err String := do
  let a ← env.attr img "data-src"
  pure (a.getD "")

/-- Second link of the image source chain (`data-original-uri`). -/
def imgSrc2 (env : Env) (img : Loc) : Except Err String := do
  let a ← env.attr img "data-original-uri"
  match a with
  | some v => if v ≠ "" then pure v else imgSrc3 env img
  | none => imgSrc3 env img

/-- Image source chain `src or data-original-uri or data-src or ""`. -/
def imgSrc1 (env : Env) (img : Loc) : Except Err String := do
  let a ← env.attr img "src"
  match a with
  | some v => if v ≠ "" then pure v else imgSrc2 env img
  | none => imgSrc2 env img

/-- Set insertion (`image_urls.add(src)`), modelled as
insertion-ordered deduplication. -/
def galleryAdd (acc : List String) (src : String) : List String :=
  if src ∈ acc then acc else acc ++ [src]

/-- Per-image scan of one gallery selector: keep non-empty sources not
starting with `data:`; read errors skip the image. -/
def galleryScanImgs (env : Env) (acc : List String) : List Loc → List String
  | [] => acc
  | img :: rest =>
    match imgSrc1 env img with
    | .error _ => galleryScanImgs env acc rest
    | .ok src =>
      if src ≠ "" && !(src.startsWith "data:") then
        galleryScanImgs env (galleryAdd acc src) rest
      else galleryScanImgs env acc rest

/-- Selector loop of `_collect_gallery_images`. -/
def galleryScanSels (env : Env) (acc : List String) : List String → List String
  | [] => acc
  | sel :: rest =>
    galleryScanSels env (galleryScanImgs env acc (safe_find_all env sel)) rest

/-- Page-wide `img` fallback of `_collect_gallery_images`: keep sources
containing `http`. -/
def fallbackImgScan (env : Env) (acc : List String) : List Loc → List String
  | [] => acc
  | img :: rest =>
    match env.attr img "src" with
    | .error _ => fallbackImgScan env acc rest
    | .ok s =>
      let src := s.getD ""
      if src ≠ "" && strContains src "http" then
        fallbackImgScan env (galleryAdd acc src) rest
      else fallbackImgScan env acc rest

/-- Embedding of `Step06ListingDetails._collect_gallery_images`. -/
def collect_gallery_images (env : Env) : List String :=
  let urls := galleryScanSels env [] gallerySelectors
  if urls.isEmpty then fallbackImgScan env [] (safe_find_all env "img")
  else urls

/-- Embedding of `Step06ListingDetails.run`: an empty listings input
returns the empty dict immediately — before any of the three
`save_test_result` call sites of this stage.  `pick` stands for the
`random.choice` draw; `_persist` touches only the listings table (never
the result sink) and is disabled in the default journey
(`persist_to_db=store_db=False`). -/
def step06_run (env : Env) (pick : Nat) (listings : List Listing) :
    M (Option DetailsResult) := do
  if listings.isEmpty then pure none
  else do
    let listing := listings.getD (pick % listings.length) ⟨"", "", "", ""⟩
    let _ ← open_listing env listing
    take_screenshot "step06_listing_details"
    let page_ok := strContains env.url "/rooms/"
    record 6 "Listing Details Page Load" page_ok
    let title ← headingLoop env titleSelectors
    let subtitle ← headingLoop env subtitleSelectors
    take_screenshot "step06_title_subtitle"
    record 6 "Listing Title and Subtitle Capture" (title ≠ "")
    let image_urls := collect_gallery_images env
    take_screenshot "step06_gallery"
    record 6 "Listing Gallery Image URLs Collection" (image_urls.length > 0)
    pure (some ⟨title, subtitle, image_urls, env.url⟩)

/-! ## The journey (`automation/management/commands/run_airbnb_automation.py`) -/

/-- Embedding of `Command._run_journey` in its default invocation
(`step=0`, `store_db=False`, so the result sink is the no-op service
and no `Automation Session Start`/`End` results exist; the monitoring
hand-offs carry no `StageResult`s).  The stage `run` methods are called
unguarded in sequence, so any exception escaping a stage propagates out
of the journey (and `handle` re-raises it). -/
def run_journey (env : Env) (airbnb_url destination : String)
    (ridx rgap adults children pick : Nat) : M Unit := do
  let country ← step01_run env airbnb_url destination
  let _suggestion_ok ← step02_run env country
  let dateInfo ← step03_run env ridx rgap
  let guest_count ← step04_run env adults children
  let listings ← step05_run env dateInfo.1 dateInfo.2 guest_count
  let _details ← step06_run env pick listings
  pure ()

/-- Number of `StageResult` hand-offs tagged with a given stage. -/
def stageCount (stage : Nat) (trs : List (Nat × String × Bool)) : Nat :=
  (trs.filter fun t => t.1 = stage).length

end Airbnb

/-- A page where the initial `load` wait times out and the recovery
`wait_for_selector` also times out — a pure selector miss on the
landing page. -/
def c3ThrowEnv : Airbnb.Env :=
  { Airbnb.allFailEnv with loadStateRes := .error .timeout }

/-- C3 counterexample, two parts.  (a) On the all-fail page the journey
does terminate normally, but the attempted Details stage records zero
`StageResult`s (its listings input is empty), while the Results stage
just before it records five — so "one recorded StageResult per
attempted stage" fails.  (b) A single selector miss can abort the whole
run: when the landing load-state wait times out and its
`wait_for_selector` recovery also times out, the journey raises. -/
theorem c3_counterexample :
    (((Airbnb.run_journey Airbnb.allFailEnv "https://www.airbnb.com/"
        "Germany" 0 0 3 2 0) ⟨[], []⟩).1 = .ok () ∧
      Airbnb.stageCount 5
        (((Airbnb.run_journey Airbnb.allFailEnv "https://www.airbnb.com/"
          "Germany" 0 0 3 2 0) ⟨[], []⟩).2.trs) = 5 ∧
      Airbnb.stageCount 6
        (((Airbnb.run_journey Airbnb.allFailEnv "https://www.airbnb.com/"
          "Germany" 0 0 3 2 0) ⟨[], []⟩).2.trs) = 0) ∧
    ((Airbnb.run_journey c3ThrowEnv "https://www.airbnb.com/"
        "Germany" 0 0 3 2 0) ⟨[], []⟩).1 = .error .timeout := by
  exact ⟨⟨by decide, by decide, by decide⟩, by decide⟩

/-- C3 (amended): on the canonical benign all-fail snapshot — every
query succeeds with `false`/zero/`None`, navigation and load succeed,
and every interaction attempt fails inside its guard — the journey
terminates normally (nothing escapes) for every destination draw and
every random parameter, and the six attempted stages hand the sink
exactly `[2, 2, 1, 1, 5, 0]` `StageResult`s: one-or-more per attempted
stage holds for stages 1–5, while the attempted Details stage records
none (its listings input is empty), and an unguarded raising locator
(see the counterexample's second part) can still abort the run. -/
theorem c3_allfail_journey_completes (dest : String)
    (ridx rgap adults children pick : Nat) :
    ((Airbnb.run_journey Airbnb.allFailEnv "https://www.airbnb.com/"
        dest ridx rgap adults children pick) ⟨[], []⟩).1 = .ok () ∧
    Airbnb.stageCount 1
      (((Airbnb.run_journey Airbnb.allFailEnv "https://www.airbnb.com/"
        dest ridx rgap adults children pick) ⟨[], []⟩).2.trs) = 2 ∧
    Airbnb.stageCount 2
      (((Airbnb.run_journey Airbnb.allFailEnv "https://www.airbnb.com/"
        dest ridx rgap adults children pick) ⟨[], []⟩).2.trs) = 2 ∧
    Airbnb.stageCount 3
      (((Airbnb.run_journey Airbnb.allFailEnv "https://www.airbnb.com/"
        dest ridx rgap adults children pick) ⟨[], []⟩).2.trs) = 1 ∧
    Airbnb.stageCount 4
      (((Airbnb.run_journey Airbnb.allFailEnv "https://www.airbnb.com/"
        dest ridx rgap adults children pick) ⟨[], []⟩).2.trs) = 1 ∧
    Airbnb.stageCount 5
      (((Airbnb.run_journey Airbnb.allFailEnv "https://www.airbnb.com/"
        dest ridx rgap adults children pick) ⟨[], []⟩).2.trs) = 5 ∧
    Airbnb.stageCount 6
      (((Airbnb.run_journey Airbnb.allFailEnv "https://www.airbnb.com/"
        dest ridx rgap adults children pick) ⟨[], []⟩).2.trs) = 0 := by
  refine ⟨?_, ?_, ?_, ?_, ?_, ?_, ?_⟩ <;> rfl

/-- C3 witness: the amended theorem instantiated at a concrete
destination and concrete random draws. -/
theorem c3_witness :
    ((Airbnb.run_journey Airbnb.allFailEnv "https://www.airbnb.com/"
        "Germany" 1 2 3 2 1) ⟨[], []⟩).1 = .ok () ∧
    Airbnb.stageCount 1
      (((Airbnb.run_journey Airbnb.allFailEnv "https://www.airbnb.com/"
        "Germany" 1 2 3 2 1) ⟨[], []⟩).2.trs) = 2 ∧
    Airbnb.stageCount 2
      (((Airbnb.run_journey Airbnb.allFailEnv "https://www.airbnb.com/"
        "Germany" 1 2 3 2 1) ⟨[], []⟩).2.trs) = 2 ∧
    Airbnb.stageCount 3
      (((Airbnb.run_journey Airbnb.allFailEnv "https://www.airbnb.com/"
        "Germany" 1 2 3 2 1) ⟨[], []⟩).2.trs) = 1 ∧
    Airbnb.stageCount 4
      (((Airbnb.run_journey Airbnb.allFailEnv "https://www.airbnb.com/"
        "Germany" 1 2 3 2 1) ⟨[], []⟩).2.trs) = 1 ∧
    Airbnb.stageCount 5
      (((Airbnb.run_journey Airbnb.allFailEnv "https://www.airbnb.com/"
        "Germany" 1 2 3 2 1) ⟨[], []⟩).2.trs) = 5 ∧
    Airbnb.stageCount 6
      (((Airbnb.run_journey Airbnb.allFailEnv "https://www.airbnb.com/"
        "Germany" 1 2 3 2 1) ⟨[], []⟩).2.trs) = 0 :=
  c3_allfail_journey_completes "Germany" 1 2 3 2 1
